import Mathlib

/-!
Verification development for the animal_spharm repository
(animal_spharm/animal_spharm.py, class SpharmInterface).

The module is a data-shape adapter between labeled, masked, multi-dimensional
arrays (xarray DataArray objects) and the plain (lat, lon, other) numpy layout
required by the spharm/windspharm libraries.

Shallow embedding conventions:
* A plain numpy ndarray is a shape together with its C-order flat data list
  (structure NDArray).  numpy reshape keeps the C-order data and changes the
  shape; rollaxis/swapaxes/transpose and reverse slicing are re-indexings,
  modelled by materialising the re-indexed flat data.
* A labeled array (xarray DataArray) carries dimension names, per-name
  coordinate value lists, the underlying NDArray, and an optional boolean
  mask in C-order (structure DataArray).  The optional mask models the
  duck-typed optional mask attribute used by the source (try u.mask except
  AttributeError), per the spec data model of a labeled array with an
  optional boolean mask.  Numeric values are Int (the code is orientation
  and layout bookkeeping; no floating point behaviour is relevant).
* External library primitives consumed by the source (numpy rollaxis and
  swapaxes and reshape, xarray squeeze, drop, isel, to_masked_array) are
  modelled following their documented semantics; each such definition notes
  this in its doc comment.
* Python truthiness of the n_lat and n_lon parameters (default False) is
  modelled by Nat with 0 falsy.  Exceptions are modelled with Except.

The file is organised as: all definitions first (index machinery, the two
array structures, the SpharmInterface operations translated from the source,
and the concrete inputs used by witnesses and counterexamples), then all
theorems.
-/

namespace AnimalSpharm

/-- Product of a list of dimension sizes (number of elements of that shape). -/
def prodl : List Nat → Nat
  | [] => 1
  | s :: ss => s * prodl ss

/-- C-order flat position of a multi-index in an array of the given shape. -/
def flatIdx : List Nat → List Nat → Nat
  | _ :: ss, i :: is => i * prodl ss + flatIdx ss is
  | _, _ => 0

/-- Multi-index corresponding to a C-order flat position. -/
def unflatten : List Nat → Nat → List Nat
  | [], _ => []
  | _ :: ss, k => (k / prodl ss) :: unflatten ss (k % prodl ss)

/-- Bounds check of a multi-index against a shape. -/
def validIx : List Nat → List Nat → Bool
  | [], [] => true
  | s :: ss, i :: is => decide (i < s) && validIx ss is
  | _, _ => false

/-! ### Plain numpy arrays -/

/-- A plain numpy ndarray: a shape and the C-order flat data list. -/
structure NDArray (α : Type) where
  shape : List Nat
  data : List α
deriving DecidableEq, Repr

namespace NDArray

variable {α : Type}

/-- numpy ndim: number of axes. -/
def ndim (a : NDArray α) : Nat := a.shape.length

/-- Element at a multi-index (C-order layout). -/
def get [Inhabited α] (a : NDArray α) (ix : List Nat) : α :=
  a.data.getD (flatIdx a.shape ix) default

/-- Re-indexing primitive: build the array of shape s whose element at
multi-index jx is the source element at multi-index f jx.  All numpy
axis-permuting and axis-reversing operations below are instances. -/
def remap [Inhabited α] (a : NDArray α) (s : List Nat) (f : List Nat → List Nat) :
    NDArray α :=
  ⟨s, (List.range (prodl s)).map (fun k => a.get (f (unflatten s k)))⟩

/-- numpy reshape (modelled for C-contiguous semantics): the C-order data is
unchanged, only the shape changes. -/
def reshape (a : NDArray α) (s : List Nat) : NDArray α := ⟨s, a.data⟩

/-- Source index of output multi-index jx under numpy transpose with axis
list p: output axis q reads input axis p q, so input position q is read from
output position (index of q in p). -/
def scatterIx (n : Nat) (p : List Nat) (jx : List Nat) : List Nat :=
  (List.range n).map (fun q => jx.getD (p.indexOf q) 0)

/-- numpy transpose with an explicit axis permutation p:
out.shape i = in.shape (p i) and out jx = in ix with ix (p i) = jx i. -/
def transpose [Inhabited α] (a : NDArray α) (p : List Nat) : NDArray α :=
  a.remap (p.map (fun i => a.shape.getD i 0)) (scatterIx a.ndim p)

/-- Axis permutation realised by numpy moveaxis: remove the axis from the
identity order and reinsert it at position dest. -/
def movePerm (n axis dest : Nat) : List Nat :=
  let rest := (List.range n).filter (fun q => q != axis)
  rest.take dest ++ axis :: rest.drop dest

/-- numpy rollaxis a axis start: the axis is rolled until it lies at start
(at start - 1 when start > axis), i.e. moveaxis to that destination. -/
def rollaxis [Inhabited α] (a : NDArray α) (axis start : Nat) : NDArray α :=
  a.transpose (movePerm a.ndim axis (if start ≤ axis then start else start - 1))

/-- numpy swapaxes: transpose exchanging axes i and j. -/
def swapaxes [Inhabited α] (a : NDArray α) (i j : Nat) : NDArray α :=
  a.transpose ((List.range a.ndim).map
    (fun q => if q = i then j else if q = j then i else q))

/-- numpy reverse slicing along the first axis (the expression a[::-1]). -/
def rev0 [Inhabited α] (a : NDArray α) : NDArray α :=
  a.remap a.shape (fun ix =>
    match ix with
    | i :: r => (a.shape.headD 0 - 1 - i) :: r
    | [] => [])

end NDArray

/-! ### Labeled arrays (xarray DataArray model) -/

/-- A labeled array: named axes, per-name coordinate value lists, the
underlying plain array, and the optional boolean mask (C-order, same layout
as the data; none models the absence of a mask attribute). -/
structure DataArray (α : Type) where
  dims : List String
  coords : List (String × List Int)
  arr : NDArray α
  mask : Option (List Bool)
deriving DecidableEq, Repr

namespace DataArray

variable {α : Type}

/-- xarray ndim: number of axes of the underlying array. -/
def ndim (a : DataArray α) : Nat := a.arr.shape.length

/-- xarray DataArray.copy: an independent copy; in a pure embedding this is
the value itself. -/
def copy (a : DataArray α) : DataArray α := a

/-- xarray get_axis_num: position of the named dimension. -/
def get_axis_num (a : DataArray α) (name : String) : Nat :=
  a.dims.indexOf name

/-- Coordinate values of the named coordinate (empty when absent). -/
def coord (a : DataArray α) (name : String) : List Int :=
  ((a.coords.lookup name).getD [])

/-- Whether the C-order flat position k is masked. -/
def maskedFlat (a : DataArray α) (k : Nat) : Bool :=
  match a.mask with
  | some m => m.getD k false
  | none => false

/-- Structural well-formedness: the flat data matches the shape, the mask
(when present) matches the data, and there is one name per axis. -/
def wf (a : DataArray α) : Bool :=
  (a.arr.data.length == prodl a.arr.shape) &&
  (match a.mask with
   | some m => m.length == a.arr.data.length
   | none => true) &&
  (a.dims.length == a.arr.shape.length)

/-- xarray to_masked_array (modelled on the optional-mask data model): the
flat values together with the flat mask, an all-false mask when absent. -/
def to_masked_array (a : DataArray α) : List α × List Bool :=
  (a.arr.data, a.mask.getD (List.replicate a.arr.data.length false))

/-- xarray squeeze (modelled from the library semantics): drop every axis of
length one, keeping the data, the coordinates (the coordinate of a dropped
axis remains as a scalar coordinate) and the mask. -/
def squeeze_x (a : DataArray α) : DataArray α :=
  { dims := ((a.dims.zip a.arr.shape).filter (fun p => p.2 != 1)).map (fun p => p.1),
    coords := a.coords,
    arr := ⟨a.arr.shape.filter (fun s => s != 1), a.arr.data⟩,
    mask := a.mask }

/-- xarray drop of a coordinate name (modelled from the source comment:
raises KeyError when the array still needs that coordinate, i.e. when it is
a coordinate of a current dimension). -/
def drop (a : DataArray α) (name : String) : Except Unit (DataArray α) :=
  if name ∈ a.dims then Except.error ()
  else Except.ok { a with coords := a.coords.filter (fun p => p.1 != name) }

/-- xarray isel with a reversed slice on the named dimension (the call
arr.isel(lat=slice(-1, None, -1))): reverse the values, the mask and the
coordinate along that axis. -/
def isel_rev [Inhabited α] (a : DataArray α) (dim : String) : DataArray α :=
  let ax := a.dims.indexOf dim
  let n := a.arr.shape.getD ax 0
  let f : List Nat → List Nat := fun ix => ix.set ax (n - 1 - ix.getD ax 0)
  { dims := a.dims,
    coords := a.coords.map (fun p => if p.1 = dim then (p.1, p.2.reverse) else p),
    arr := a.arr.remap a.arr.shape f,
    mask := a.mask.map (fun m =>
      (NDArray.remap ⟨a.arr.shape, m⟩ a.arr.shape f).data) }

end DataArray

/-! ### The SpharmInterface class -/

def LAT_STR : String := "lat"
def LON_STR : String := "lon"

/-- Adapter state built by SpharmInterface.__init__.  The external
transform-library handles (windspharm VectorWind, spharm Spharmt) are opaque
third-party objects and are not modelled; the grid configuration fields are
stored but never read by the modelled operations and are omitted.  The
warned flag records that the logging.warning branch (n_lat or n_lon supplied
together with u and v) was taken. -/
structure SpharmInterface where
  _u : Option (DataArray Int)
  _v : Option (DataArray Int)
  mask : Option (List Bool)
  u : Option (NDArray Int)
  v : Option (NDArray Int)
  n_lat : Nat
  n_lon : Nat
  warned : Bool
deriving DecidableEq, Repr

namespace SpharmInterface

/-- SpharmInterface.squeeze: arr.squeeze() for the dims, then drop every
coordinate with zero or one value, silently skipping coordinates whose
removal raises (source lines 24-37).  The loop over the frozen coordinate
list of the squeezed array is the fold dropLoop. -/
def dropLoop (a : DataArray Int) : List (String × List Int) → DataArray Int
  | [] => a
  | (name, c) :: rest =>
    if c.length = 0 ∨ c.length = 1 then
      match a.drop name with
      | Except.ok a2 => dropLoop a2 rest
      | Except.error _ => dropLoop a rest
    else dropLoop a rest

/-- Remove dimensions and excess coordinates with only one value
(source lines 24-37). -/
def squeeze (arr : DataArray Int) : DataArray Int :=
  let arr2 := arr.squeeze_x
  dropLoop arr2 arr2.coords

/-- Replace masked entries with the specified fill value (source lines
39-44); the result is a fresh unmasked DataArray with the original dims and
coords. -/
def fill_mask (arr : DataArray Int) (fill_value : Int) : DataArray Int :=
  let vm := arr.to_masked_array
  let arr_filled := List.zipWith (fun v b => if b then fill_value else v) vm.1 vm.2
  { dims := arr.dims, coords := arr.coords,
    arr := ⟨arr.arr.shape, arr_filled⟩, mask := none }

/-- The latitude-difference test of flag_flip_lat (source line 54):
in_south_to_north = all(lat[1:] - lat[:-1]); Python all() tests truthiness,
i.e. that every successive difference is nonzero. -/
def flag_flip_lat_vals (lat : List Int) (out_north_to_south : Bool) : Bool :=
  let diffs := List.zipWith (fun b a => b - a) (lat.drop 1) lat
  let in_south_to_north := diffs.all (fun d => d != 0)
  (in_south_to_north && out_north_to_south) ||
    (!in_south_to_north && !out_north_to_south)

/-- flag_flip_lat on a labeled array (source lines 46-56): grab the latitude
coordinate values and apply the difference test. -/
def flag_flip_lat (arr : DataArray Int) (out_north_to_south : Bool) : Bool :=
  flag_flip_lat_vals (arr.coord LAT_STR) out_north_to_south

/-- Flip latitude order from S-N to N-S or vice versa, as specified
(source lines 58-64): reverse the latitude axis when flag_flip_lat says so,
otherwise return a copy. -/
def flip_lat_order (arr : DataArray Int) (out_north_to_south : Bool) :
    DataArray Int :=
  if flag_flip_lat arr out_north_to_south then arr.isel_rev LAT_STR
  else arr.copy

/-- The local rolled of format_axes_for_spharm (source lines 75-77): both
np.rollaxis calls use axis positions computed on the original array. -/
def fmt_rolled (arr : DataArray Int) : NDArray Int :=
  (arr.arr.rollaxis (arr.get_axis_num LAT_STR) 0).rollaxis
    (arr.get_axis_num LON_STR) 1

/-- Make a numpy array with axes adhering to spharm requirements
(source lines 66-78): roll the latitude axis to position 0, then apply
np.rollaxis with the pre-roll longitude position and start 1, then reshape
to (shape 0, shape 1, -1). -/
def format_axes_for_spharm (arr : DataArray Int) : NDArray Int :=
  (fmt_rolled arr).reshape [(fmt_rolled arr).shape.getD 0 0,
    (fmt_rolled arr).shape.getD 1 0, prodl ((fmt_rolled arr).shape.drop 2)]

/-- The non-None body of prep_for_spharm: fill the mask with zeros (the
default fill value), flip the latitude order to north-to-south, format the
axes (source lines 80-92). -/
def prep_arr (arr : DataArray Int) : NDArray Int :=
  format_axes_for_spharm (flip_lat_order (fill_mask arr 0) true)

/-- Prep an array for usage by the spharm/windspharm packages
(source lines 80-92); None propagates to None. -/
def prep_for_spharm : Option (DataArray Int) → Option (NDArray Int)
  | none => none
  | some arr => some (prep_arr arr)

/-- SpharmInterface.__init__ (source lines 94-134).  Parameters n_lat and
n_lon default to the falsy False, modelled as Nat with 0 falsy.  With
squeeze=True and a missing component the Python call self.squeeze(None)
raises AttributeError.  The ValueError branch models the configuration
error; the make_vectorwind/make_spharmt branches only build unmodelled
external handles. -/
def init (u0 v0 : Option (DataArray Int)) (n_lat0 n_lon0 : Nat)
    (squeeze0 : Bool) : Except String SpharmInterface :=
  if squeeze0 ∧ (u0.isNone ∨ v0.isNone) then Except.error "AttributeError"
  else
    let u := if squeeze0 then u0.map squeeze else u0
    let v := if squeeze0 then v0.map squeeze else v0
    let mask := u.bind DataArray.mask
    match u, v with
    | some ua, some va =>
      let su := prep_arr ua
      let sv := prep_arr va
      Except.ok
        { _u := some ua, _v := some va, mask := mask,
          u := some su, v := some sv,
          n_lat := su.shape.getD 0 0, n_lon := su.shape.getD 1 0,
          warned := decide (n_lat0 ≠ 0 ∨ n_lon0 ≠ 0) }
    | u, v =>
      if n_lat0 = 0 ∧ n_lon0 = 0 then
        Except.error "ValueError: None of u, v, n_lat, or n_lon were specified."
      else
        Except.ok
          { _u := u, _v := v, mask := mask, u := none, v := none,
            n_lat := n_lat0, n_lon := n_lon0, warned := false }

/-- The local shape_other_dims of to_xarray (source lines 155-157): the
lengths of the axes of the original array other than latitude and longitude,
in enumeration order. -/
def tx_shape_other (arr_orig : DataArray Int) : List Nat :=
  ((List.range arr_orig.ndim).filter
    (fun n => (n != arr_orig.get_axis_num LAT_STR) &&
      (n != arr_orig.get_axis_num LON_STR))).map
    (fun n => arr_orig.arr.shape.getD n 0)

/-- The local arr_new after the reshape of to_xarray (source lines 158-159). -/
def tx_arr1 (ndarray : NDArray Int) (arr_orig : DataArray Int) : NDArray Int :=
  ndarray.reshape ([ndarray.shape.getD 0 0, ndarray.shape.getD 1 0] ++
    tx_shape_other arr_orig)

/-- The local arr_new after np.rollaxis(arr_new, 2, 0) (source line 161). -/
def tx_arr2 (ndarray : NDArray Int) (arr_orig : DataArray Int) : NDArray Int :=
  (tx_arr1 ndarray arr_orig).rollaxis 2 0

/-- The local arr_new after the 4-dimensional special case
np.rollaxis(arr_new, -1, 1) (source lines 162-163); -1 is the normalised
last axis. -/
def tx_arr3 (ndarray : NDArray Int) (arr_orig : DataArray Int) : NDArray Int :=
  if arr_orig.ndim = 4 then
    (tx_arr2 ndarray arr_orig).rollaxis ((tx_arr2 ndarray arr_orig).ndim - 1) 1
  else tx_arr2 ndarray arr_orig

/-- The local arr_new after the conditional latitude flip-back
(source lines 164-168): swap the latitude axis to the front, reverse,
swap back. -/
def tx_arr4 (ndarray : NDArray Int) (arr_orig : DataArray Int) : NDArray Int :=
  if flag_flip_lat arr_orig true then
    (((tx_arr3 ndarray arr_orig).swapaxes (arr_orig.get_axis_num LAT_STR)
      0).rev0).swapaxes (arr_orig.get_axis_num LAT_STR) 0
  else tx_arr3 ndarray arr_orig

/-- The body of to_xarray after the arr_orig default has been resolved
(source lines 153-171): re-expand the collapsed trailing axes, roll back to
the original axis order (with the extra roll only in the 4-dimensional
case), flip the latitude back when the original would have been flipped, and
wrap with the original dims and coords, reapplying the stored mask. -/
def to_xarray_core (self : SpharmInterface) (ndarray : NDArray Int)
    (arr_orig : DataArray Int) : DataArray Int :=
  { dims := arr_orig.dims, coords := arr_orig.coords,
    arr := tx_arr4 ndarray arr_orig, mask := self.mask }

/-- Create an xarray object matching the original one (source lines
148-171).  A missing arr_orig defaults to the u component stored at
construction; when that is also missing the Python code fails with
AttributeError, modelled as none. -/
def to_xarray (self : SpharmInterface) (ndarray : NDArray Int)
    (arr_orig : Option (DataArray Int)) : Option (DataArray Int) :=
  match (match arr_orig with | none => self._u | some a => some a) with
  | none => none
  | some orig => some (self.to_xarray_core ndarray orig)

end SpharmInterface

/-- Whether an Except value is the error case (a raised Python exception). -/
def isError {ε α : Type} : Except ε α → Bool
  | Except.error _ => true
  | Except.ok _ => false

/-! ### Concrete inputs used by witnesses and counterexamples -/

/-- Fallback interface value for total extraction from Except. -/
def siFallback : SpharmInterface :=
  ⟨none, none, none, none, none, 0, 0, false⟩

/-- A labeled array whose latitude coordinate runs north to south,
[90, 45, 0, -45, -90]. -/
def c2A : DataArray Int :=
  ⟨[LAT_STR], [(LAT_STR, [90, 45, 0, -45, -90])],
    ⟨[5], [0, 1, 2, 3, 4]⟩, none⟩

/-- A labeled array with axis order (time, lon, lat) and sizes (2, 3, 4). -/
def c6A : DataArray Int :=
  ⟨["time", LON_STR, LAT_STR],
    [("time", [0, 1]), (LON_STR, [1, 2, 3]), (LAT_STR, [10, 20, 30, 40])],
    ⟨[2, 3, 4], (List.range 24).map Int.ofNat⟩, none⟩

/-- A labeled array with a latitude axis of size zero. -/
def c8ceA : DataArray Int :=
  ⟨[LAT_STR, LON_STR], [(LAT_STR, []), (LON_STR, [1, 2])], ⟨[0, 2], []⟩, none⟩

/-- A small squeezable labeled array: axis p of size one. -/
def c8wA : DataArray Int :=
  ⟨["p", LAT_STR], [("p", [5]), (LAT_STR, [1, 2, 3])], ⟨[1, 3], [7, 8, 9]⟩, none⟩

/-- The spec mask-fill example: values [[1, 2], [3, 4]] with the
off-diagonal entries masked. -/
def c5wA : DataArray Int :=
  ⟨[LAT_STR, LON_STR], [(LAT_STR, [1, 2]), (LON_STR, [3, 4])],
    ⟨[2, 2], [1, 2, 3, 4]⟩, some [false, true, true, false]⟩

/-- A masked 3-dimensional labeled array with axis order (time, lat, lon)
and a north-to-south latitude coordinate. -/
def c4wA : DataArray Int :=
  ⟨["time", LAT_STR, LON_STR],
    [("time", [0, 1]), (LAT_STR, [30, 20, 10]), (LON_STR, [1, 2, 3, 4])],
    ⟨[2, 3, 4], (List.range 24).map Int.ofNat⟩,
    some ((List.range 24).map (fun k => k % 5 == 0))⟩

/-- A small labeled array used by the construction witnesses. -/
def c3wA : DataArray Int :=
  ⟨[LAT_STR, LON_STR], [(LAT_STR, [1, 2]), (LON_STR, [3, 4])],
    ⟨[2, 2], [1, 2, 3, 4]⟩, none⟩

/-- The u component for the mask-capture witness: carries a mask. -/
def c9uA : DataArray Int :=
  ⟨[LAT_STR, LON_STR], [(LAT_STR, [1, 2]), (LON_STR, [3, 4])],
    ⟨[2, 2], [1, 2, 3, 4]⟩, some [true, false, false, false]⟩

/-- The v component for the mask-capture witness: carries a different mask. -/
def c9vA : DataArray Int :=
  ⟨[LAT_STR, LON_STR], [(LAT_STR, [1, 2]), (LON_STR, [3, 4])],
    ⟨[2, 2], [5, 6, 7, 8]⟩, some [false, false, false, true]⟩

/-- The interface built from c9uA and c9vA. -/
def c9si : SpharmInterface :=
  match SpharmInterface.init (some c9uA) (some c9vA) 0 0 false with
  | Except.ok s => s
  | Except.error _ => siFallback

/-- The interface built from c3wA twice. -/
def c10si : SpharmInterface :=
  match SpharmInterface.init (some c3wA) (some c3wA) 0 0 false with
  | Except.ok s => s
  | Except.error _ => siFallback

/-- Round-trip counterexample input: axis order (lat, lon, time), which the
restore step does not support. -/
def c1ceA : DataArray Int :=
  ⟨[LAT_STR, LON_STR, "time"],
    [(LAT_STR, [10, 20]), (LON_STR, [1, 2, 3]), ("time", [0, 1, 2, 3])],
    ⟨[2, 3, 4], (List.range 24).map Int.ofNat⟩, none⟩

/-- The interface built from c1ceA twice. -/
def c1ceSi : SpharmInterface :=
  match SpharmInterface.init (some c1ceA) (some c1ceA) 0 0 false with
  | Except.ok s => s
  | Except.error _ => siFallback

/-- Round-trip witness input: a masked (time, lat, lon) array with a
north-to-south latitude coordinate (so the flip branch is exercised). -/
def c1wA : DataArray Int :=
  ⟨["time", LAT_STR, LON_STR],
    [("time", [0, 1]), (LAT_STR, [30, 20, 10]), (LON_STR, [1, 2, 3, 4])],
    ⟨[2, 3, 4], (List.range 24).map Int.ofNat⟩,
    some ((List.range 24).map (fun k => k % 5 == 0))⟩

/-- The interface built from c1wA twice. -/
def c1wSi : SpharmInterface :=
  match SpharmInterface.init (some c1wA) (some c1wA) 0 0 false with
  | Except.ok s => s
  | Except.error _ => siFallback

/-- The prepped plain array of c1wA. -/
def c1wP : NDArray Int :=
  (SpharmInterface.prep_for_spharm (some c1wA)).getD ⟨[], []⟩

/-- The restored labeled array of the c1wA round trip. -/
def c1wR : DataArray Int := c1wSi.to_xarray_core c1wP c1wA

end AnimalSpharm

/-! ## Theorems -/

namespace AnimalSpharm

/-! ### Index machinery -/

@[simp] theorem prodl_nil : prodl [] = 1 := rfl

@[simp] theorem prodl_cons (s : Nat) (ss : List Nat) :
    prodl (s :: ss) = s * prodl ss := rfl

@[simp] theorem flatIdx_nil (ix : List Nat) : flatIdx [] ix = 0 := by
  cases ix <;> rfl

@[simp] theorem flatIdx_cons (s : Nat) (ss : List Nat) (i : Nat) (is : List Nat) :
    flatIdx (s :: ss) (i :: is) = i * prodl ss + flatIdx ss is := rfl

@[simp] theorem unflatten_nil (k : Nat) : unflatten [] k = [] := rfl

@[simp] theorem unflatten_cons (s : Nat) (ss : List Nat) (k : Nat) :
    unflatten (s :: ss) k = (k / prodl ss) :: unflatten ss (k % prodl ss) := rfl

@[simp] theorem validIx_nil : validIx [] [] = true := rfl

@[simp] theorem validIx_cons (s : Nat) (ss : List Nat) (i : Nat) (is : List Nat) :
    validIx (s :: ss) (i :: is) = (decide (i < s) && validIx ss is) := rfl

theorem flatIdx_lt_prodl : ∀ {s ix : List Nat}, validIx s ix = true →
    flatIdx s ix < prodl s := by
  intro s
  induction s with
  | nil =>
    intro ix h
    cases ix with
    | nil => simp
    | cons i is => simp [validIx] at h
  | cons s ss ih =>
    intro ix h
    cases ix with
    | nil => simp [validIx] at h
    | cons i is =>
      simp only [validIx_cons, Bool.and_eq_true, decide_eq_true_eq] at h
      have h2 := ih h.2
      calc i * prodl ss + flatIdx ss is < i * prodl ss + prodl ss := by omega
        _ = (i + 1) * prodl ss := by ring
        _ ≤ s * prodl ss := Nat.mul_le_mul_right _ h.1
        _ = prodl (s :: ss) := rfl

theorem unflatten_flatIdx : ∀ {s ix : List Nat}, validIx s ix = true →
    unflatten s (flatIdx s ix) = ix := by
  intro s
  induction s with
  | nil =>
    intro ix h
    cases ix with
    | nil => simp
    | cons i is => simp [validIx] at h
  | cons s ss ih =>
    intro ix h
    cases ix with
    | nil => simp [validIx] at h
    | cons i is =>
      simp only [validIx_cons, Bool.and_eq_true, decide_eq_true_eq] at h
      have hr : flatIdx ss is < prodl ss := flatIdx_lt_prodl h.2
      have hP : 0 < prodl ss := by omega
      have hdiv : (i * prodl ss + flatIdx ss is) / prodl ss = i := by
        rw [Nat.add_comm, Nat.mul_comm, Nat.add_mul_div_left _ _ hP,
          Nat.div_eq_of_lt hr]
        omega
      have hmod : (i * prodl ss + flatIdx ss is) % prodl ss = flatIdx ss is := by
        rw [Nat.add_comm, Nat.mul_comm, Nat.add_mul_mod_self_left,
          Nat.mod_eq_of_lt hr]
      simp [hdiv, hmod, ih h.2]

theorem flatIdx_unflatten : ∀ {s : List Nat} (k : Nat), k < prodl s →
    flatIdx s (unflatten s k) = k := by
  intro s
  induction s with
  | nil =>
    intro k hk
    simp only [prodl_nil, Nat.lt_one_iff] at hk
    simp [hk]
  | cons s ss ih =>
    intro k hk
    have hP : 0 < prodl ss := by
      rcases Nat.eq_zero_or_pos (prodl ss) with h0 | h0
      · simp [h0] at hk
      · exact h0
    have hmod : k % prodl ss < prodl ss := Nat.mod_lt _ hP
    simp only [unflatten_cons, flatIdx_cons, ih _ hmod]
    have h1 := Nat.div_add_mod k (prodl ss)
    have h2 : k / prodl ss * prodl ss = prodl ss * (k / prodl ss) :=
      Nat.mul_comm _ _
    omega

theorem validIx_unflatten : ∀ {s : List Nat} (k : Nat), k < prodl s →
    validIx s (unflatten s k) = true := by
  intro s
  induction s with
  | nil =>
    intro k hk
    simp
  | cons s ss ih =>
    intro k hk
    have hP : 0 < prodl ss := by
      rcases Nat.eq_zero_or_pos (prodl ss) with h0 | h0
      · simp [h0] at hk
      · exact h0
    have hdiv : k / prodl ss < s := by
      rw [Nat.div_lt_iff_lt_mul hP]
      calc k < prodl (s :: ss) := hk
        _ = s * prodl ss := rfl
    have hmod : k % prodl ss < prodl ss := Nat.mod_lt _ hP
    simp [hdiv, ih _ hmod]

theorem getD_range_map {α : Type} (f : Nat → α) (d : α) {k n : Nat} (h : k < n) :
    ((List.range n).map f).getD k d = f k := by
  rw [List.getD_eq_getElem?_getD, List.getElem?_map, List.getElem?_range h]
  rfl

theorem map_range_getD {α : Type} (l : List α) (d : α) {n : Nat}
    (h : l.length = n) : (List.range n).map (fun k => l.getD k d) = l := by
  subst h
  apply List.ext_getElem
  · simp
  · intro i h1 h2
    simp only [List.getElem_map, List.getElem_range]
    rw [List.getD_eq_getElem?_getD, List.getElem?_eq_getElem h2]
    rfl

theorem validIx_length : ∀ {s ix : List Nat}, validIx s ix = true →
    ix.length = s.length := by
  intro s
  induction s with
  | nil => intro ix h; cases ix with
    | nil => rfl
    | cons i is => simp [validIx] at h
  | cons s ss ih =>
    intro ix h
    cases ix with
    | nil => simp [validIx] at h
    | cons i is =>
      simp only [validIx_cons, Bool.and_eq_true, decide_eq_true_eq] at h
      simp [ih h.2]

theorem validIx_getD : ∀ {s ix : List Nat} {j : Nat}, validIx s ix = true →
    j < s.length → ix.getD j 0 < s.getD j 0 := by
  intro s
  induction s with
  | nil => intro ix j _ hj; simp at hj
  | cons s ss ih =>
    intro ix j h hj
    cases ix with
    | nil => simp [validIx] at h
    | cons i is =>
      simp only [validIx_cons, Bool.and_eq_true, decide_eq_true_eq] at h
      cases j with
      | zero => simpa using h.1
      | succ j =>
        simp only [List.getD_cons_succ]
        exact ih h.2 (by simpa using hj)

theorem validIx_set : ∀ {s ix : List Nat} {j v : Nat}, validIx s ix = true →
    v < s.getD j 0 → validIx s (ix.set j v) = true := by
  intro s
  induction s with
  | nil =>
    intro ix j v h _
    cases ix with
    | nil => simp
    | cons i is => simp [validIx] at h
  | cons s ss ih =>
    intro ix j v h hv
    cases ix with
    | nil => simp [validIx] at h
    | cons i is =>
      simp only [validIx_cons, Bool.and_eq_true, decide_eq_true_eq] at h
      cases j with
      | zero =>
        simp only [List.getD_cons_zero] at hv
        simp [List.set, hv, h.2]
      | succ j =>
        simp only [List.getD_cons_succ] at hv
        simp [List.set, h.1, ih h.2 hv]

theorem set_of_length_le : ∀ {α : Type} (l : List α) {j : Nat} (v : α),
    l.length ≤ j → l.set j v = l := by
  intro α l
  induction l with
  | nil => intro j v _; simp
  | cons x xs ih =>
    intro j v h
    cases j with
    | zero => simp at h
    | succ j => simp [List.set, ih v (by simpa using h)]

theorem set_getD_self : ∀ (l : List Nat) (j : Nat), l.set j (l.getD j 0) = l := by
  intro l
  induction l with
  | nil => intro j; simp
  | cons x xs ih =>
    intro j
    cases j with
    | zero => simp
    | succ j =>
      show x :: xs.set j (xs.getD j 0) = x :: xs
      rw [ih j]

theorem getD_set_self : ∀ (l : List Nat) (j v : Nat), j < l.length →
    (l.set j v).getD j 0 = v := by
  intro l
  induction l with
  | nil => intro j v h; simp at h
  | cons x xs ih =>
    intro j v h
    cases j with
    | zero => simp
    | succ j =>
      show (xs.set j v).getD j 0 = v
      exact ih j v (by simpa using h)

theorem validIx3_intro {s0 s1 s2 a b c : Nat} (h0 : a < s0) (h1 : b < s1)
    (h2 : c < s2) : validIx [s0, s1, s2] [a, b, c] = true := by
  simp [h0, h1, h2]

theorem validIx3_elim {s0 s1 s2 : Nat} {ix : List Nat}
    (h : validIx [s0, s1, s2] ix = true) :
    ∃ a b c, ix = [a, b, c] ∧ a < s0 ∧ b < s1 ∧ c < s2 := by
  match ix with
  | [] => simp [validIx] at h
  | [_] => simp [validIx] at h
  | [_, _] => simp [validIx] at h
  | a :: b :: c :: rest =>
    match rest with
    | [] =>
      simp only [validIx_cons, validIx_nil, Bool.and_eq_true,
        decide_eq_true_eq, Bool.and_true] at h
      exact ⟨a, b, c, rfl, h.1, h.2.1, h.2.2⟩
    | _ :: _ => simp [validIx] at h

theorem validIx4_intro {s0 s1 s2 s3 a b c d : Nat} (h0 : a < s0) (h1 : b < s1)
    (h2 : c < s2) (h3 : d < s3) :
    validIx [s0, s1, s2, s3] [a, b, c, d] = true := by
  simp [h0, h1, h2, h3]

theorem validIx4_elim {s0 s1 s2 s3 : Nat} {ix : List Nat}
    (h : validIx [s0, s1, s2, s3] ix = true) :
    ∃ a b c d, ix = [a, b, c, d] ∧ a < s0 ∧ b < s1 ∧ c < s2 ∧ d < s3 := by
  match ix with
  | [] => simp [validIx] at h
  | [_] => simp [validIx] at h
  | [_, _] => simp [validIx] at h
  | [_, _, _] => simp [validIx] at h
  | a :: b :: c :: d :: rest =>
    match rest with
    | [] =>
      simp only [validIx_cons, validIx_nil, Bool.and_eq_true,
        decide_eq_true_eq, Bool.and_true] at h
      exact ⟨a, b, c, d, rfl, h.1, h.2.1, h.2.2.1, h.2.2.2⟩
    | _ :: _ => simp [validIx] at h

/-! ### NDArray lemmas -/

namespace NDArray

variable {α : Type}

@[simp] theorem remap_shape [Inhabited α] (a : NDArray α) (s : List Nat) (f) :
    (a.remap s f).shape = s := rfl

@[simp] theorem reshape_shape (a : NDArray α) (s : List Nat) :
    (a.reshape s).shape = s := rfl

@[simp] theorem reshape_data (a : NDArray α) (s : List Nat) :
    (a.reshape s).data = a.data := rfl

theorem reshape_reshape (a : NDArray α) (s t : List Nat) :
    (a.reshape s).reshape t = a.reshape t := rfl

theorem reshape_self (a : NDArray α) {s : List Nat} (h : a.shape = s) :
    a.reshape s = a := by
  cases a
  cases h
  rfl

theorem remap_data_length [Inhabited α] (a : NDArray α) (s : List Nat) (f) :
    (a.remap s f).data.length = prodl s := by
  simp [remap]

theorem get_remap [Inhabited α] (a : NDArray α) (s : List Nat)
    (f : List Nat → List Nat) (ix : List Nat) (h : validIx s ix = true) :
    (a.remap s f).get ix = a.get (f ix) := by
  show ((List.range (prodl s)).map
      (fun k => a.get (f (unflatten s k)))).getD (flatIdx s ix) default = _
  rw [getD_range_map _ _ (flatIdx_lt_prodl h), unflatten_flatIdx h]

theorem get_transpose [Inhabited α] (x : NDArray α) (p ix : List Nat)
    (hv : validIx ((x.transpose p).shape) ix = true) :
    (x.transpose p).get ix = x.get (scatterIx x.ndim p ix) :=
  get_remap x _ _ ix hv

theorem get_rev0_cons [Inhabited α] (x : NDArray α) (i : Nat) (r : List Nat)
    (hv : validIx x.shape (i :: r) = true) :
    x.rev0.get (i :: r) = x.get ((x.shape.headD 0 - 1 - i) :: r) :=
  get_remap x _ _ _ hv

@[simp] theorem transpose_shape [Inhabited α] (x : NDArray α) (p : List Nat) :
    (x.transpose p).shape = p.map (fun i => x.shape.getD i 0) := rfl

@[simp] theorem rev0_shape [Inhabited α] (x : NDArray α) :
    x.rev0.shape = x.shape := rfl

theorem remap_remap_self [Inhabited α] (x : NDArray α)
    (f : List Nat → List Nat) (hlen : x.data.length = prodl x.shape)
    (hf : ∀ ix, validIx x.shape ix = true → validIx x.shape (f ix) = true)
    (hff : ∀ ix, validIx x.shape ix = true → f (f ix) = ix) :
    (x.remap x.shape f).remap x.shape f = x := by
  obtain ⟨s, d⟩ := x
  simp only [remap] at *
  congr 1
  have step : ∀ k ∈ List.range (prodl s),
      NDArray.get ⟨s, (List.range (prodl s)).map
          (fun k2 => NDArray.get ⟨s, d⟩ (f (unflatten s k2)))⟩
        (f (unflatten s k)) = d.getD k default := by
    intro k hk
    have hk2 : k < prodl s := List.mem_range.mp hk
    have hu : validIx s (unflatten s k) = true := validIx_unflatten k hk2
    have hfu : validIx s (f (unflatten s k)) = true := hf _ hu
    have : NDArray.get ⟨s, (List.range (prodl s)).map
        (fun k2 => NDArray.get ⟨s, d⟩ (f (unflatten s k2)))⟩
          (f (unflatten s k)) =
        NDArray.get ⟨s, d⟩ (f (f (unflatten s k))) := by
      show (NDArray.remap ⟨s, d⟩ s f).get (f (unflatten s k)) = _
      exact get_remap _ _ _ _ hfu
    rw [this, hff _ hu]
    show d.getD (flatIdx s (unflatten s k)) default = d.getD k default
    rw [flatIdx_unflatten k hk2]
  rw [List.map_congr_left step]
  exact map_range_getD d default hlen

end NDArray

/-! ### Shared DataArray and SpharmInterface lemmas -/

theorem wf_parts (A : DataArray Int) (h : A.wf = true) :
    A.arr.data.length = prodl A.arr.shape ∧
    (∀ m, A.mask = some m → m.length = A.arr.data.length) ∧
    A.dims.length = A.arr.shape.length := by
  unfold DataArray.wf at h
  rcases hm : A.mask with _ | m <;> rw [hm] at h <;>
    simp only [Bool.and_eq_true, beq_iff_eq] at h
  · refine ⟨h.1.1, fun m2 hm2 => ?_, h.2⟩
    simp at hm2
  · refine ⟨h.1.1, fun m2 hm2 => ?_, h.2⟩
    injection hm2 with he
    rw [← he]
    exact h.1.2

@[simp] theorem fill_mask_dims (A : DataArray Int) (fv : Int) :
    (SpharmInterface.fill_mask A fv).dims = A.dims := rfl

@[simp] theorem fill_mask_coords (A : DataArray Int) (fv : Int) :
    (SpharmInterface.fill_mask A fv).coords = A.coords := rfl

@[simp] theorem fill_mask_shape (A : DataArray Int) (fv : Int) :
    (SpharmInterface.fill_mask A fv).arr.shape = A.arr.shape := rfl

@[simp] theorem fill_mask_mask (A : DataArray Int) (fv : Int) :
    (SpharmInterface.fill_mask A fv).mask = none := rfl

theorem fill_mask_data_length (A : DataArray Int) (fv : Int) (h : A.wf = true) :
    (SpharmInterface.fill_mask A fv).arr.data.length = A.arr.data.length := by
  obtain ⟨h1, h2, h3⟩ := wf_parts A h
  show (List.zipWith _ A.arr.data
    (A.mask.getD (List.replicate A.arr.data.length false))).length = _
  rcases hm : A.mask with _ | m
  · simp
  · have := h2 m hm
    simp [this]

theorem getD_zipWith {α β γ : Type} (f : α → β → γ) :
    ∀ (as : List α) (bs : List β) (k : Nat) (d : γ) (da : α) (db : β),
    k < as.length → k < bs.length →
    (List.zipWith f as bs).getD k d = f (as.getD k da) (bs.getD k db) := by
  intro as
  induction as with
  | nil =>
    intro bs k d da db ha _
    simp at ha
  | cons a as ih =>
    intro bs k d da db ha hb
    cases bs with
    | nil => simp at hb
    | cons b bs =>
      cases k with
      | zero => rfl
      | succ k =>
        show (List.zipWith f as bs).getD k d = f (as.getD k da) (bs.getD k db)
        exact ih bs k d da db (by simpa using ha) (by simpa using hb)

theorem getD_replicate_false : ∀ (n k : Nat),
    (List.replicate n false).getD k false = false := by
  intro n
  induction n with
  | zero => intro k; simp
  | succ n ih =>
    intro k
    cases k with
    | zero => rfl
    | succ k =>
      show (List.replicate n false).getD k false = false
      exact ih k

theorem fill_mask_get (A : DataArray Int) (fv : Int) (h : A.wf = true)
    (ix : List Nat) (hv : validIx A.arr.shape ix = true) :
    (SpharmInterface.fill_mask A fv).arr.get ix =
      if A.maskedFlat (flatIdx A.arr.shape ix) = true then fv
      else A.arr.get ix := by
  obtain ⟨h1, h2, _⟩ := wf_parts A h
  have hk : flatIdx A.arr.shape ix < A.arr.data.length := by
    rw [h1]
    exact flatIdx_lt_prodl hv
  show (List.zipWith (fun v b => if b then fv else v) A.arr.data
      (A.mask.getD (List.replicate A.arr.data.length false))).getD
        (flatIdx A.arr.shape ix) default = _
  rcases hm : A.mask with _ | m
  · simp only [Option.getD_none]
    rw [getD_zipWith _ A.arr.data _ _ default default false hk (by simpa using hk)]
    rw [getD_replicate_false]
    have hmf : A.maskedFlat (flatIdx A.arr.shape ix) = false := by
      simp [DataArray.maskedFlat, hm]
    rw [hmf]
    simp [NDArray.get]
  · have hml := h2 m hm
    simp only [Option.getD_some]
    rw [getD_zipWith _ A.arr.data m _ default default false hk (by omega)]
    have hmf : m.getD (flatIdx A.arr.shape ix) false =
        A.maskedFlat (flatIdx A.arr.shape ix) := by
      simp [DataArray.maskedFlat, hm]
    rw [hmf]
    by_cases hb : A.maskedFlat (flatIdx A.arr.shape ix) = true
    · simp [hb]
    · simp only [Bool.not_eq_true] at hb
      simp [hb, NDArray.get]

theorem flag_flip_lat_fill (A : DataArray Int) (fv : Int) (o : Bool) :
    SpharmInterface.flag_flip_lat (SpharmInterface.fill_mask A fv) o =
      SpharmInterface.flag_flip_lat A o := rfl

theorem diffs_all_ne (l : List Int) :
    (List.zipWith (fun b a => b - a) (l.drop 1) l).all (fun d => d != 0) =
      decide (List.Chain' (fun a b : Int => a ≠ b) l) := by
  induction l with
  | nil => simp
  | cons x xs ih =>
    cases xs with
    | nil => simp
    | cons y t =>
      show (List.zipWith (fun b a => b - a) (y :: t) (x :: y :: t)).all
          (fun d => d != 0) = _
      have hstep : List.zipWith (fun b a : Int => b - a) (y :: t) (x :: y :: t) =
          (y - x) :: List.zipWith (fun b a => b - a) t (y :: t) := rfl
      rw [hstep]
      simp only [List.all_cons]
      have ih2 : (List.zipWith (fun b a : Int => b - a) t (y :: t)).all
          (fun d => d != 0) =
          decide (List.Chain' (fun a b : Int => a ≠ b) (y :: t)) := ih
      rw [ih2]
      have h1 : ((y - x : Int) != 0) = decide (x ≠ y) := by
        rcases eq_or_ne x y with h | h
        · subst h
          simp
        · have h2 : (y - x : Int) ≠ 0 := sub_ne_zero.mpr (Ne.symm h)
          simp [h2, h]
      rw [h1]
      simp [List.chain'_cons]

theorem flag_vals_reverse (l : List Int) (o : Bool) :
    SpharmInterface.flag_flip_lat_vals l.reverse o =
      SpharmInterface.flag_flip_lat_vals l o := by
  unfold SpharmInterface.flag_flip_lat_vals
  simp only [List.drop]
  rw [diffs_all_ne, diffs_all_ne]
  have hiff : List.Chain' (fun a b : Int => a ≠ b) l.reverse ↔
      List.Chain' (fun a b : Int => a ≠ b) l := by
    rw [List.chain'_reverse]
    constructor
    · intro h
      exact h.imp (fun a b hab => Ne.symm hab)
    · intro h
      exact h.imp (fun a b hab => Ne.symm hab)
  rw [decide_eq_decide.mpr hiff]

theorem lookup_map_rev (l : List (String × List Int)) (d : String) :
    ((l.map (fun p => if p.1 = d then (p.1, p.2.reverse) else p)).lookup d) =
      (l.lookup d).map List.reverse := by
  induction l with
  | nil => rfl
  | cons p l ih =>
    obtain ⟨k, v⟩ := p
    by_cases h : k = d
    · subst h
      have hhead : List.map (fun p => if p.1 = k then (p.1, p.2.reverse) else p)
          ((k, v) :: l) =
          (k, v.reverse) ::
            List.map (fun p => if p.1 = k then (p.1, p.2.reverse) else p) l := by
        simp
      rw [hhead]
      simp [List.lookup]
    · have hb : (d == k) = false := by
        rw [beq_eq_false_iff_ne]
        exact fun h2 => h h2.symm
      simp only [List.map_cons]
      rw [if_neg h]
      simp [List.lookup, hb, ih]

theorem coord_isel_rev (A : DataArray Int) (d : String) :
    (A.isel_rev d).coord d = (A.coord d).reverse := by
  show ((A.coords.map
      (fun p => if p.1 = d then (p.1, p.2.reverse) else p)).lookup d).getD [] = _
  rw [lookup_map_rev]
  rcases h : A.coords.lookup d with _ | c <;> simp [DataArray.coord, h]

theorem flag_isel_rev (A : DataArray Int) (o : Bool) :
    SpharmInterface.flag_flip_lat (A.isel_rev LAT_STR) o =
      SpharmInterface.flag_flip_lat A o := by
  unfold SpharmInterface.flag_flip_lat
  rw [coord_isel_rev, flag_vals_reverse]

theorem indexOf_lat3 (d0 : String) (h : d0 ≠ LAT_STR) :
    [d0, LAT_STR, LON_STR].indexOf LAT_STR = 1 := by
  rw [List.indexOf_cons_ne _ h, List.indexOf_cons_self]

theorem indexOf_lon3 (d0 : String) (h : d0 ≠ LON_STR) :
    [d0, LAT_STR, LON_STR].indexOf LON_STR = 2 := by
  rw [List.indexOf_cons_ne _ h, List.indexOf_cons_ne _ (by decide),
    List.indexOf_cons_self]

theorem indexOf_lat4 (d0 d1 : String) (h0 : d0 ≠ LAT_STR) (h1 : d1 ≠ LAT_STR) :
    [d0, d1, LAT_STR, LON_STR].indexOf LAT_STR = 2 := by
  rw [List.indexOf_cons_ne _ h0, List.indexOf_cons_ne _ h1,
    List.indexOf_cons_self]

theorem indexOf_lon4 (d0 d1 : String) (h0 : d0 ≠ LON_STR) (h1 : d1 ≠ LON_STR) :
    [d0, d1, LAT_STR, LON_STR].indexOf LON_STR = 3 := by
  rw [List.indexOf_cons_ne _ h0, List.indexOf_cons_ne _ h1,
    List.indexOf_cons_ne _ (by decide), List.indexOf_cons_self]

theorem roundtrip3 (A : DataArray Int) (d0 : String)
    (h0a : d0 ≠ LAT_STR) (h0b : d0 ≠ LON_STR)
    (hdims : A.dims = [d0, LAT_STR, LON_STR]) (h : A.wf = true) :
    (SpharmInterface.tx_arr4 (SpharmInterface.prep_arr A) A).shape =
      A.arr.shape ∧
    ∀ ix, validIx A.arr.shape ix = true →
      (SpharmInterface.tx_arr4 (SpharmInterface.prep_arr A) A).get ix =
        (SpharmInterface.fill_mask A 0).arr.get ix := by
  obtain ⟨hlen, hmaskl, hdl⟩ := wf_parts A h
  have hsl : A.arr.shape.length = 3 := by
    rw [← hdl, hdims]
    rfl
  obtain ⟨n0, nl, nm, hshape⟩ := List.length_eq_three.mp hsl
  set F := SpharmInterface.fill_mask A 0 with hF
  have hFshape : F.arr.shape = [n0, nl, nm] := by
    show A.arr.shape = [n0, nl, nm]
    exact hshape
  have hFdims : F.dims = [d0, LAT_STR, LON_STR] := by
    show A.dims = [d0, LAT_STR, LON_STR]
    exact hdims
  set G := SpharmInterface.flip_lat_order F true with hG
  -- characterise the flip stage in both flag cases
  have hGprops : (G.arr.shape = [n0, nl, nm]) ∧
      (G.dims = [d0, LAT_STR, LON_STR]) ∧
      ((SpharmInterface.flag_flip_lat A true = true →
        G.arr = F.arr.remap [n0, nl, nm]
          (fun ix => ix.set 1 (nl - 1 - ix.getD 1 0))) ∧
       (SpharmInterface.flag_flip_lat A true = false → G.arr = F.arr)) := by
    by_cases ht : SpharmInterface.flag_flip_lat A true = true
    · have hflagF : SpharmInterface.flag_flip_lat F true = true := by
        rw [hF, flag_flip_lat_fill]
        exact ht
      have hGs : G = F.isel_rev LAT_STR := by
        rw [hG]
        unfold SpharmInterface.flip_lat_order
        rw [hflagF]
        simp
      have hGarr : G.arr = F.arr.remap [n0, nl, nm]
          (fun ix => ix.set 1 (nl - 1 - ix.getD 1 0)) := by
        rw [hGs]
        show F.arr.remap F.arr.shape (fun ix => ix.set (F.dims.indexOf LAT_STR)
          (F.arr.shape.getD (F.dims.indexOf LAT_STR) 0 - 1 -
            ix.getD (F.dims.indexOf LAT_STR) 0)) = _
        have hax : F.dims.indexOf LAT_STR = 1 := by
          rw [hFdims]
          exact indexOf_lat3 d0 h0a
        rw [hax, hFshape]
        rfl
      refine ⟨?_, ?_, ⟨fun _ => hGarr, fun hc => ?_⟩⟩
      · rw [hGarr]
        rfl
      · rw [hGs]
        show F.dims = _
        exact hFdims
      · rw [ht] at hc
        cases hc
    · have ht2 : SpharmInterface.flag_flip_lat A true = false := by
        simpa using ht
      have hflagF : SpharmInterface.flag_flip_lat F true = false := by
        rw [hF, flag_flip_lat_fill]
        exact ht2
      have hGs : G = F := by
        rw [hG]
        unfold SpharmInterface.flip_lat_order
        rw [hflagF]
        simp [DataArray.copy]
      refine ⟨?_, ?_, ⟨fun hc => ?_, fun _ => ?_⟩⟩
      · rw [hGs]
        exact hFshape
      · rw [hGs]
        exact hFdims
      · rw [ht2] at hc
        cases hc
      · rw [hGs]
  obtain ⟨hGshape, hGdims, hGarrT, hGarrF⟩ := hGprops
  have hGndim : G.arr.ndim = 3 := by
    unfold NDArray.ndim
    rw [hGshape]
    rfl
  have haxlatG : G.get_axis_num LAT_STR = 1 := by
    unfold DataArray.get_axis_num
    rw [hGdims]
    exact indexOf_lat3 d0 h0a
  have haxlonG : G.get_axis_num LON_STR = 2 := by
    unfold DataArray.get_axis_num
    rw [hGdims]
    exact indexOf_lon3 d0 h0b
  have hroll1 : G.arr.rollaxis 1 0 = G.arr.transpose [1, 0, 2] := by
    unfold NDArray.rollaxis
    rw [hGndim]
    exact congrArg _ (by decide)
  have hT1shape : (G.arr.transpose [1, 0, 2]).shape = [nl, n0, nm] := by
    rw [NDArray.transpose_shape, hGshape]
    rfl
  have hT1ndim : (G.arr.transpose [1, 0, 2]).ndim = 3 := by
    unfold NDArray.ndim
    rw [hT1shape]
    rfl
  have hroll2 : (G.arr.transpose [1, 0, 2]).rollaxis 2 1 =
      (G.arr.transpose [1, 0, 2]).transpose [0, 2, 1] := by
    unfold NDArray.rollaxis
    rw [hT1ndim]
    exact congrArg _ (by decide)
  have hT2shape : ((G.arr.transpose [1, 0, 2]).transpose [0, 2, 1]).shape =
      [nl, nm, n0] := by
    rw [NDArray.transpose_shape, hT1shape]
    rfl
  have hT2ndim : ((G.arr.transpose [1, 0, 2]).transpose [0, 2, 1]).ndim = 3 := by
    unfold NDArray.ndim
    rw [hT2shape]
    rfl
  have hP : SpharmInterface.prep_arr A =
      ((G.arr.transpose [1, 0, 2]).transpose [0, 2, 1]).reshape
        [nl, nm, n0 * 1] := by
    show SpharmInterface.format_axes_for_spharm G = _
    unfold SpharmInterface.format_axes_for_spharm SpharmInterface.fmt_rolled
    rw [haxlatG, haxlonG, hroll1, hroll2, hT2shape]
    rfl
  -- the restore side
  have hndA : A.ndim = 3 := by
    unfold DataArray.ndim
    rw [hshape]
    rfl
  have haxlatA : A.get_axis_num LAT_STR = 1 := by
    unfold DataArray.get_axis_num
    rw [hdims]
    exact indexOf_lat3 d0 h0a
  have haxlonA : A.get_axis_num LON_STR = 2 := by
    unfold DataArray.get_axis_num
    rw [hdims]
    exact indexOf_lon3 d0 h0b
  have hso : SpharmInterface.tx_shape_other A = [n0] := by
    unfold SpharmInterface.tx_shape_other
    rw [hndA, haxlatA, haxlonA, hshape]
    rfl
  have hPshape : (SpharmInterface.prep_arr A).shape = [nl, nm, n0 * 1] := by
    rw [hP]
    rfl
  have harr1 : SpharmInterface.tx_arr1 (SpharmInterface.prep_arr A) A =
      (G.arr.transpose [1, 0, 2]).transpose [0, 2, 1] := by
    unfold SpharmInterface.tx_arr1
    rw [hso, hPshape, hP, NDArray.reshape_reshape]
    exact NDArray.reshape_self _ hT2shape
  have harr2 : SpharmInterface.tx_arr2 (SpharmInterface.prep_arr A) A =
      ((G.arr.transpose [1, 0, 2]).transpose [0, 2, 1]).transpose [2, 0, 1] := by
    unfold SpharmInterface.tx_arr2
    rw [harr1]
    unfold NDArray.rollaxis
    rw [hT2ndim]
    exact congrArg _ (by decide)
  have harr3 : SpharmInterface.tx_arr3 (SpharmInterface.prep_arr A) A =
      SpharmInterface.tx_arr2 (SpharmInterface.prep_arr A) A := by
    unfold SpharmInterface.tx_arr3
    rw [hndA]
    rfl
  have hT3shape : (SpharmInterface.tx_arr3 (SpharmInterface.prep_arr A) A).shape =
      [n0, nl, nm] := by
    rw [harr3, harr2, NDArray.transpose_shape, hT2shape]
    rfl
  have hT3ndim : (SpharmInterface.tx_arr3 (SpharmInterface.prep_arr A) A).ndim = 3 := by
    unfold NDArray.ndim
    rw [hT3shape]
    rfl
  by_cases ht : SpharmInterface.flag_flip_lat A true = true
  · -- flip branch on both sides
    have hGarr := hGarrT ht
    have hsw1 : (SpharmInterface.tx_arr3 (SpharmInterface.prep_arr A) A).swapaxes 1 0 =
        (SpharmInterface.tx_arr3 (SpharmInterface.prep_arr A) A).transpose [1, 0, 2] := by
      unfold NDArray.swapaxes
      rw [hT3ndim]
      exact congrArg _ (by decide)
    have hrevshape : (((SpharmInterface.tx_arr3 (SpharmInterface.prep_arr A) A).transpose
        [1, 0, 2]).rev0).ndim = 3 := by
      unfold NDArray.ndim
      rw [NDArray.rev0_shape, NDArray.transpose_shape, hT3shape]
      rfl
    have hsw2 : (((SpharmInterface.tx_arr3 (SpharmInterface.prep_arr A) A).transpose
        [1, 0, 2]).rev0).swapaxes 1 0 =
        (((SpharmInterface.tx_arr3 (SpharmInterface.prep_arr A) A).transpose
          [1, 0, 2]).rev0).transpose [1, 0, 2] := by
      unfold NDArray.swapaxes
      rw [hrevshape]
      exact congrArg _ (by decide)
    have harr4 : SpharmInterface.tx_arr4 (SpharmInterface.prep_arr A) A =
        (((SpharmInterface.tx_arr3 (SpharmInterface.prep_arr A) A).transpose
          [1, 0, 2]).rev0).transpose [1, 0, 2] := by
      unfold SpharmInterface.tx_arr4
      rw [ht, haxlatA, hsw1, hsw2]
      simp
    constructor
    · rw [harr4, NDArray.transpose_shape, NDArray.rev0_shape,
        NDArray.transpose_shape, hT3shape, hshape]
      rfl
    · intro ix hv
      rw [hshape] at hv
      obtain ⟨a, b, c, rfl, ha, hb2, hc⟩ := validIx3_elim hv
      rw [harr4]
      have hv1 : validIx (((((SpharmInterface.tx_arr3
          (SpharmInterface.prep_arr A) A).transpose [1, 0, 2]).rev0).transpose
            [1, 0, 2]).shape) [a, b, c] = true := by
        rw [NDArray.transpose_shape, NDArray.rev0_shape, NDArray.transpose_shape,
          hT3shape]
        exact validIx3_intro ha hb2 hc
      rw [NDArray.get_transpose _ _ _ hv1, hrevshape]
      have hsc1 : NDArray.scatterIx 3 [1, 0, 2] [a, b, c] = [b, a, c] := rfl
      rw [hsc1]
      have hv2 : validIx (((SpharmInterface.tx_arr3 (SpharmInterface.prep_arr A)
          A).transpose [1, 0, 2]).shape) (b :: [a, c]) = true := by
        rw [NDArray.transpose_shape, hT3shape]
        exact validIx3_intro hb2 ha hc
      rw [NDArray.get_rev0_cons _ _ _ hv2]
      have hhd : ((SpharmInterface.tx_arr3 (SpharmInterface.prep_arr A)
          A).transpose [1, 0, 2]).shape.headD 0 = nl := by
        rw [NDArray.transpose_shape, hT3shape]
        rfl
      rw [hhd]
      have hb3 : nl - 1 - b < nl := by omega
      have hv3 : validIx (((SpharmInterface.tx_arr3 (SpharmInterface.prep_arr A)
          A).transpose [1, 0, 2]).shape) [nl - 1 - b, a, c] = true := by
        rw [NDArray.transpose_shape, hT3shape]
        exact validIx3_intro hb3 ha hc
      rw [NDArray.get_transpose _ _ _ hv3, hT3ndim]
      have hsc2 : NDArray.scatterIx 3 [1, 0, 2] [nl - 1 - b, a, c] =
          [a, nl - 1 - b, c] := rfl
      rw [hsc2]
      rw [harr3, harr2]
      have hv4 : validIx ((((G.arr.transpose [1, 0, 2]).transpose
          [0, 2, 1]).transpose [2, 0, 1]).shape) [a, nl - 1 - b, c] = true := by
        rw [NDArray.transpose_shape, hT2shape]
        exact validIx3_intro ha hb3 hc
      rw [NDArray.get_transpose _ _ _ hv4, hT2ndim]
      have hsc3 : NDArray.scatterIx 3 [2, 0, 1] [a, nl - 1 - b, c] =
          [nl - 1 - b, c, a] := rfl
      rw [hsc3]
      have hv5 : validIx (((G.arr.transpose [1, 0, 2]).transpose
          [0, 2, 1]).shape) [nl - 1 - b, c, a] = true := by
        rw [hT2shape]
        exact validIx3_intro hb3 hc ha
      rw [NDArray.get_transpose _ _ _ hv5, hT1ndim]
      have hsc4 : NDArray.scatterIx 3 [0, 2, 1] [nl - 1 - b, c, a] =
          [nl - 1 - b, a, c] := rfl
      rw [hsc4]
      have hv6 : validIx ((G.arr.transpose [1, 0, 2]).shape)
          [nl - 1 - b, a, c] = true := by
        rw [hT1shape]
        exact validIx3_intro hb3 ha hc
      rw [NDArray.get_transpose _ _ _ hv6, hGndim]
      have hsc5 : NDArray.scatterIx 3 [1, 0, 2] [nl - 1 - b, a, c] =
          [a, nl - 1 - b, c] := rfl
      rw [hsc5]
      rw [hGarr]
      have hv7 : validIx [n0, nl, nm] [a, nl - 1 - b, c] = true :=
        validIx3_intro ha hb3 hc
      rw [NDArray.get_remap _ _ _ _ hv7]
      have hfr : ([a, nl - 1 - b, c].set 1
          (nl - 1 - [a, nl - 1 - b, c].getD 1 0)) = [a, b, c] := by
        show [a, nl - 1 - (nl - 1 - b), c] = [a, b, c]
        have harith : nl - 1 - (nl - 1 - b) = b := by omega
        rw [harith]
      rw [hfr]
  · -- no-flip branch on both sides
    have ht2 : SpharmInterface.flag_flip_lat A true = false := by
      simpa using ht
    have hGarr := hGarrF ht2
    have harr4 : SpharmInterface.tx_arr4 (SpharmInterface.prep_arr A) A =
        SpharmInterface.tx_arr3 (SpharmInterface.prep_arr A) A := by
      unfold SpharmInterface.tx_arr4
      rw [ht2]
      simp
    constructor
    · rw [harr4, hT3shape, hshape]
    · intro ix hv
      rw [hshape] at hv
      obtain ⟨a, b, c, rfl, ha, hb2, hc⟩ := validIx3_elim hv
      rw [harr4, harr3, harr2]
      have hv4 : validIx ((((G.arr.transpose [1, 0, 2]).transpose
          [0, 2, 1]).transpose [2, 0, 1]).shape) [a, b, c] = true := by
        rw [NDArray.transpose_shape, hT2shape]
        exact validIx3_intro ha hb2 hc
      rw [NDArray.get_transpose _ _ _ hv4, hT2ndim]
      have hsc3 : NDArray.scatterIx 3 [2, 0, 1] [a, b, c] = [b, c, a] := rfl
      rw [hsc3]
      have hv5 : validIx (((G.arr.transpose [1, 0, 2]).transpose
          [0, 2, 1]).shape) [b, c, a] = true := by
        rw [hT2shape]
        exact validIx3_intro hb2 hc ha
      rw [NDArray.get_transpose _ _ _ hv5, hT1ndim]
      have hsc4 : NDArray.scatterIx 3 [0, 2, 1] [b, c, a] = [b, a, c] := rfl
      rw [hsc4]
      have hv6 : validIx ((G.arr.transpose [1, 0, 2]).shape) [b, a, c] = true := by
        rw [hT1shape]
        exact validIx3_intro hb2 ha hc
      rw [NDArray.get_transpose _ _ _ hv6, hGndim]
      have hsc5 : NDArray.scatterIx 3 [1, 0, 2] [b, a, c] = [a, b, c] := rfl
      rw [hsc5]
      rw [hGarr]

theorem roundtrip4 (A : DataArray Int) (d0 d1 : String)
    (h0a : d0 ≠ LAT_STR) (h0b : d0 ≠ LON_STR)
    (h1a : d1 ≠ LAT_STR) (h1b : d1 ≠ LON_STR)
    (hdims : A.dims = [d0, d1, LAT_STR, LON_STR]) (h : A.wf = true) :
    (SpharmInterface.tx_arr4 (SpharmInterface.prep_arr A) A).shape =
      A.arr.shape ∧
    ∀ ix, validIx A.arr.shape ix = true →
      (SpharmInterface.tx_arr4 (SpharmInterface.prep_arr A) A).get ix =
        (SpharmInterface.fill_mask A 0).arr.get ix := by
  obtain ⟨hlen, hmaskl, hdl⟩ := wf_parts A h
  have hsl : A.arr.shape.length = 4 := by
    rw [← hdl, hdims]
    rfl
  obtain ⟨n0, n1, nl, nm, hshape⟩ :
      ∃ n0 n1 nl nm, A.arr.shape = [n0, n1, nl, nm] := by
    match hs : A.arr.shape, hsl with
    | [a, b, c, d], _ => exact ⟨a, b, c, d, rfl⟩
  set F := SpharmInterface.fill_mask A 0 with hF
  have hFshape : F.arr.shape = [n0, n1, nl, nm] := by
    show A.arr.shape = [n0, n1, nl, nm]
    exact hshape
  have hFdims : F.dims = [d0, d1, LAT_STR, LON_STR] := by
    show A.dims = [d0, d1, LAT_STR, LON_STR]
    exact hdims
  set G := SpharmInterface.flip_lat_order F true with hG
  have hGprops : (G.arr.shape = [n0, n1, nl, nm]) ∧
      (G.dims = [d0, d1, LAT_STR, LON_STR]) ∧
      ((SpharmInterface.flag_flip_lat A true = true →
        G.arr = F.arr.remap [n0, n1, nl, nm]
          (fun ix => ix.set 2 (nl - 1 - ix.getD 2 0))) ∧
       (SpharmInterface.flag_flip_lat A true = false → G.arr = F.arr)) := by
    by_cases ht : SpharmInterface.flag_flip_lat A true = true
    · have hflagF : SpharmInterface.flag_flip_lat F true = true := by
        rw [hF, flag_flip_lat_fill]
        exact ht
      have hGs : G = F.isel_rev LAT_STR := by
        rw [hG]
        unfold SpharmInterface.flip_lat_order
        rw [hflagF]
        simp
      have hGarr : G.arr = F.arr.remap [n0, n1, nl, nm]
          (fun ix => ix.set 2 (nl - 1 - ix.getD 2 0)) := by
        rw [hGs]
        show F.arr.remap F.arr.shape (fun ix => ix.set (F.dims.indexOf LAT_STR)
          (F.arr.shape.getD (F.dims.indexOf LAT_STR) 0 - 1 -
            ix.getD (F.dims.indexOf LAT_STR) 0)) = _
        have hax : F.dims.indexOf LAT_STR = 2 := by
          rw [hFdims]
          exact indexOf_lat4 d0 d1 h0a h1a
        rw [hax, hFshape]
        rfl
      refine ⟨?_, ?_, ⟨fun _ => hGarr, fun hc => ?_⟩⟩
      · rw [hGarr]
        rfl
      · rw [hGs]
        show F.dims = _
        exact hFdims
      · rw [ht] at hc
        cases hc
    · have ht2 : SpharmInterface.flag_flip_lat A true = false := by
        simpa using ht
      have hflagF : SpharmInterface.flag_flip_lat F true = false := by
        rw [hF, flag_flip_lat_fill]
        exact ht2
      have hGs : G = F := by
        rw [hG]
        unfold SpharmInterface.flip_lat_order
        rw [hflagF]
        simp [DataArray.copy]
      refine ⟨?_, ?_, ⟨fun hc => ?_, fun _ => ?_⟩⟩
      · rw [hGs]
        exact hFshape
      · rw [hGs]
        exact hFdims
      · rw [ht2] at hc
        cases hc
      · rw [hGs]
  obtain ⟨hGshape, hGdims, hGarrT, hGarrF⟩ := hGprops
  have hGndim : G.arr.ndim = 4 := by
    unfold NDArray.ndim
    rw [hGshape]
    rfl
  have haxlatG : G.get_axis_num LAT_STR = 2 := by
    unfold DataArray.get_axis_num
    rw [hGdims]
    exact indexOf_lat4 d0 d1 h0a h1a
  have haxlonG : G.get_axis_num LON_STR = 3 := by
    unfold DataArray.get_axis_num
    rw [hGdims]
    exact indexOf_lon4 d0 d1 h0b h1b
  have hroll1 : G.arr.rollaxis 2 0 = G.arr.transpose [2, 0, 1, 3] := by
    unfold NDArray.rollaxis
    rw [hGndim]
    exact congrArg _ (by decide)
  have hT1shape : (G.arr.transpose [2, 0, 1, 3]).shape = [nl, n0, n1, nm] := by
    rw [NDArray.transpose_shape, hGshape]
    rfl
  have hT1ndim : (G.arr.transpose [2, 0, 1, 3]).ndim = 4 := by
    unfold NDArray.ndim
    rw [hT1shape]
    rfl
  have hroll2 : (G.arr.transpose [2, 0, 1, 3]).rollaxis 3 1 =
      (G.arr.transpose [2, 0, 1, 3]).transpose [0, 3, 1, 2] := by
    unfold NDArray.rollaxis
    rw [hT1ndim]
    exact congrArg _ (by decide)
  have hT2shape : ((G.arr.transpose [2, 0, 1, 3]).transpose [0, 3, 1, 2]).shape =
      [nl, nm, n0, n1] := by
    rw [NDArray.transpose_shape, hT1shape]
    rfl
  have hT2ndim : ((G.arr.transpose [2, 0, 1, 3]).transpose [0, 3, 1, 2]).ndim = 4 := by
    unfold NDArray.ndim
    rw [hT2shape]
    rfl
  have hP : SpharmInterface.prep_arr A =
      ((G.arr.transpose [2, 0, 1, 3]).transpose [0, 3, 1, 2]).reshape
        [nl, nm, n0 * (n1 * 1)] := by
    show SpharmInterface.format_axes_for_spharm G = _
    unfold SpharmInterface.format_axes_for_spharm SpharmInterface.fmt_rolled
    rw [haxlatG, haxlonG, hroll1, hroll2, hT2shape]
    rfl
  have hndA : A.ndim = 4 := by
    unfold DataArray.ndim
    rw [hshape]
    rfl
  have haxlatA : A.get_axis_num LAT_STR = 2 := by
    unfold DataArray.get_axis_num
    rw [hdims]
    exact indexOf_lat4 d0 d1 h0a h1a
  have haxlonA : A.get_axis_num LON_STR = 3 := by
    unfold DataArray.get_axis_num
    rw [hdims]
    exact indexOf_lon4 d0 d1 h0b h1b
  have hso : SpharmInterface.tx_shape_other A = [n0, n1] := by
    unfold SpharmInterface.tx_shape_other
    rw [hndA, haxlatA, haxlonA, hshape]
    rfl
  have hPshape : (SpharmInterface.prep_arr A).shape = [nl, nm, n0 * (n1 * 1)] := by
    rw [hP]
    rfl
  have harr1 : SpharmInterface.tx_arr1 (SpharmInterface.prep_arr A) A =
      (G.arr.transpose [2, 0, 1, 3]).transpose [0, 3, 1, 2] := by
    unfold SpharmInterface.tx_arr1
    rw [hso, hPshape, hP, NDArray.reshape_reshape]
    exact NDArray.reshape_self _ hT2shape
  have harr2 : SpharmInterface.tx_arr2 (SpharmInterface.prep_arr A) A =
      ((G.arr.transpose [2, 0, 1, 3]).transpose [0, 3, 1, 2]).transpose
        [2, 0, 1, 3] := by
    unfold SpharmInterface.tx_arr2
    rw [harr1]
    unfold NDArray.rollaxis
    rw [hT2ndim]
    exact congrArg _ (by decide)
  have hT3ashape : (((G.arr.transpose [2, 0, 1, 3]).transpose
      [0, 3, 1, 2]).transpose [2, 0, 1, 3]).shape = [n0, nl, nm, n1] := by
    rw [NDArray.transpose_shape, hT2shape]
    rfl
  have hT3andim : (((G.arr.transpose [2, 0, 1, 3]).transpose
      [0, 3, 1, 2]).transpose [2, 0, 1, 3]).ndim = 4 := by
    unfold NDArray.ndim
    rw [hT3ashape]
    rfl
  have harr2ndim : (SpharmInterface.tx_arr2 (SpharmInterface.prep_arr A) A).ndim
      = 4 := by
    rw [harr2]
    exact hT3andim
  have harr3 : SpharmInterface.tx_arr3 (SpharmInterface.prep_arr A) A =
      (((G.arr.transpose [2, 0, 1, 3]).transpose [0, 3, 1, 2]).transpose
        [2, 0, 1, 3]).transpose [0, 3, 1, 2] := by
    unfold SpharmInterface.tx_arr3
    rw [hndA]
    rw [if_pos rfl]
    unfold NDArray.rollaxis
    rw [harr2ndim, harr2]
    exact congrArg _ (by decide)
  have hT3shape : (SpharmInterface.tx_arr3 (SpharmInterface.prep_arr A) A).shape =
      [n0, n1, nl, nm] := by
    rw [harr3, NDArray.transpose_shape, hT3ashape]
    rfl
  have hT3ndim : (SpharmInterface.tx_arr3 (SpharmInterface.prep_arr A) A).ndim
      = 4 := by
    unfold NDArray.ndim
    rw [hT3shape]
    rfl
  by_cases ht : SpharmInterface.flag_flip_lat A true = true
  · have hGarr := hGarrT ht
    have hsw1 : (SpharmInterface.tx_arr3 (SpharmInterface.prep_arr A) A).swapaxes 2 0 =
        (SpharmInterface.tx_arr3 (SpharmInterface.prep_arr A) A).transpose
          [2, 1, 0, 3] := by
      unfold NDArray.swapaxes
      rw [hT3ndim]
      exact congrArg _ (by decide)
    have hrevshape : (((SpharmInterface.tx_arr3 (SpharmInterface.prep_arr A)
        A).transpose [2, 1, 0, 3]).rev0).ndim = 4 := by
      unfold NDArray.ndim
      rw [NDArray.rev0_shape, NDArray.transpose_shape, hT3shape]
      rfl
    have hsw2 : (((SpharmInterface.tx_arr3 (SpharmInterface.prep_arr A)
        A).transpose [2, 1, 0, 3]).rev0).swapaxes 2 0 =
        (((SpharmInterface.tx_arr3 (SpharmInterface.prep_arr A)
          A).transpose [2, 1, 0, 3]).rev0).transpose [2, 1, 0, 3] := by
      unfold NDArray.swapaxes
      rw [hrevshape]
      exact congrArg _ (by decide)
    have harr4 : SpharmInterface.tx_arr4 (SpharmInterface.prep_arr A) A =
        (((SpharmInterface.tx_arr3 (SpharmInterface.prep_arr A) A).transpose
          [2, 1, 0, 3]).rev0).transpose [2, 1, 0, 3] := by
      unfold SpharmInterface.tx_arr4
      rw [ht, haxlatA, hsw1, hsw2]
      simp
    constructor
    · rw [harr4, NDArray.transpose_shape, NDArray.rev0_shape,
        NDArray.transpose_shape, hT3shape, hshape]
      rfl
    · intro ix hv
      rw [hshape] at hv
      obtain ⟨a, b, c, d, rfl, ha, hb2, hc, hd⟩ := validIx4_elim hv
      rw [harr4]
      have hv1 : validIx (((((SpharmInterface.tx_arr3
          (SpharmInterface.prep_arr A) A).transpose [2, 1, 0, 3]).rev0).transpose
            [2, 1, 0, 3]).shape) [a, b, c, d] = true := by
        rw [NDArray.transpose_shape, NDArray.rev0_shape, NDArray.transpose_shape,
          hT3shape]
        exact validIx4_intro ha hb2 hc hd
      rw [NDArray.get_transpose _ _ _ hv1, hrevshape]
      have hsc1 : NDArray.scatterIx 4 [2, 1, 0, 3] [a, b, c, d] =
          [c, b, a, d] := rfl
      rw [hsc1]
      have hv2 : validIx (((SpharmInterface.tx_arr3 (SpharmInterface.prep_arr A)
          A).transpose [2, 1, 0, 3]).shape) [c, b, a, d] = true := by
        rw [NDArray.transpose_shape, hT3shape]
        exact validIx4_intro hc hb2 ha hd
      rw [NDArray.get_rev0_cons _ _ _ hv2]
      have hhd : ((SpharmInterface.tx_arr3 (SpharmInterface.prep_arr A)
          A).transpose [2, 1, 0, 3]).shape.headD 0 = nl := by
        rw [NDArray.transpose_shape, hT3shape]
        rfl
      rw [hhd]
      have hc3 : nl - 1 - c < nl := by omega
      have hv3 : validIx (((SpharmInterface.tx_arr3 (SpharmInterface.prep_arr A)
          A).transpose [2, 1, 0, 3]).shape) [nl - 1 - c, b, a, d] = true := by
        rw [NDArray.transpose_shape, hT3shape]
        exact validIx4_intro hc3 hb2 ha hd
      rw [NDArray.get_transpose _ _ _ hv3, hT3ndim]
      have hsc2 : NDArray.scatterIx 4 [2, 1, 0, 3] [nl - 1 - c, b, a, d] =
          [a, b, nl - 1 - c, d] := rfl
      rw [hsc2]
      rw [harr3]
      have hv4 : validIx ((((((G.arr.transpose [2, 0, 1, 3]).transpose
          [0, 3, 1, 2]).transpose [2, 0, 1, 3]).transpose [0, 3, 1, 2])).shape)
            [a, b, nl - 1 - c, d] = true := by
        rw [NDArray.transpose_shape, hT3ashape]
        exact validIx4_intro ha hb2 hc3 hd
      rw [NDArray.get_transpose _ _ _ hv4, hT3andim]
      have hsc3 : NDArray.scatterIx 4 [0, 3, 1, 2] [a, b, nl - 1 - c, d] =
          [a, nl - 1 - c, d, b] := rfl
      rw [hsc3]
      have hv5 : validIx ((((G.arr.transpose [2, 0, 1, 3]).transpose
          [0, 3, 1, 2]).transpose [2, 0, 1, 3]).shape) [a, nl - 1 - c, d, b] =
            true := by
        rw [hT3ashape]
        exact validIx4_intro ha hc3 hd hb2
      rw [NDArray.get_transpose _ _ _ hv5, hT2ndim]
      have hsc4 : NDArray.scatterIx 4 [2, 0, 1, 3] [a, nl - 1 - c, d, b] =
          [nl - 1 - c, d, a, b] := rfl
      rw [hsc4]
      have hv6 : validIx (((G.arr.transpose [2, 0, 1, 3]).transpose
          [0, 3, 1, 2]).shape) [nl - 1 - c, d, a, b] = true := by
        rw [hT2shape]
        exact validIx4_intro hc3 hd ha hb2
      rw [NDArray.get_transpose _ _ _ hv6, hT1ndim]
      have hsc5 : NDArray.scatterIx 4 [0, 3, 1, 2] [nl - 1 - c, d, a, b] =
          [nl - 1 - c, a, b, d] := rfl
      rw [hsc5]
      have hv7 : validIx ((G.arr.transpose [2, 0, 1, 3]).shape)
          [nl - 1 - c, a, b, d] = true := by
        rw [hT1shape]
        exact validIx4_intro hc3 ha hb2 hd
      rw [NDArray.get_transpose _ _ _ hv7, hGndim]
      have hsc6 : NDArray.scatterIx 4 [2, 0, 1, 3] [nl - 1 - c, a, b, d] =
          [a, b, nl - 1 - c, d] := rfl
      rw [hsc6]
      rw [hGarr]
      have hv8 : validIx [n0, n1, nl, nm] [a, b, nl - 1 - c, d] = true :=
        validIx4_intro ha hb2 hc3 hd
      rw [NDArray.get_remap _ _ _ _ hv8]
      have hfr : ([a, b, nl - 1 - c, d].set 2
          (nl - 1 - [a, b, nl - 1 - c, d].getD 2 0)) = [a, b, c, d] := by
        show [a, b, nl - 1 - (nl - 1 - c), d] = [a, b, c, d]
        have harith : nl - 1 - (nl - 1 - c) = c := by omega
        rw [harith]
      rw [hfr]
  · have ht2 : SpharmInterface.flag_flip_lat A true = false := by
      simpa using ht
    have hGarr := hGarrF ht2
    have harr4 : SpharmInterface.tx_arr4 (SpharmInterface.prep_arr A) A =
        SpharmInterface.tx_arr3 (SpharmInterface.prep_arr A) A := by
      unfold SpharmInterface.tx_arr4
      rw [ht2]
      simp
    constructor
    · rw [harr4, hT3shape, hshape]
    · intro ix hv
      rw [hshape] at hv
      obtain ⟨a, b, c, d, rfl, ha, hb2, hc, hd⟩ := validIx4_elim hv
      rw [harr4, harr3]
      have hv4 : validIx ((((((G.arr.transpose [2, 0, 1, 3]).transpose
          [0, 3, 1, 2]).transpose [2, 0, 1, 3]).transpose [0, 3, 1, 2])).shape)
            [a, b, c, d] = true := by
        rw [NDArray.transpose_shape, hT3ashape]
        exact validIx4_intro ha hb2 hc hd
      rw [NDArray.get_transpose _ _ _ hv4, hT3andim]
      have hsc3 : NDArray.scatterIx 4 [0, 3, 1, 2] [a, b, c, d] =
          [a, c, d, b] := rfl
      rw [hsc3]
      have hv5 : validIx ((((G.arr.transpose [2, 0, 1, 3]).transpose
          [0, 3, 1, 2]).transpose [2, 0, 1, 3]).shape) [a, c, d, b] = true := by
        rw [hT3ashape]
        exact validIx4_intro ha hc hd hb2
      rw [NDArray.get_transpose _ _ _ hv5, hT2ndim]
      have hsc4 : NDArray.scatterIx 4 [2, 0, 1, 3] [a, c, d, b] =
          [c, d, a, b] := rfl
      rw [hsc4]
      have hv6 : validIx (((G.arr.transpose [2, 0, 1, 3]).transpose
          [0, 3, 1, 2]).shape) [c, d, a, b] = true := by
        rw [hT2shape]
        exact validIx4_intro hc hd ha hb2
      rw [NDArray.get_transpose _ _ _ hv6, hT1ndim]
      have hsc5 : NDArray.scatterIx 4 [0, 3, 1, 2] [c, d, a, b] =
          [c, a, b, d] := rfl
      rw [hsc5]
      have hv7 : validIx ((G.arr.transpose [2, 0, 1, 3]).shape)
          [c, a, b, d] = true := by
        rw [hT1shape]
        exact validIx4_intro hc ha hb2 hd
      rw [NDArray.get_transpose _ _ _ hv7, hGndim]
      have hsc6 : NDArray.scatterIx 4 [2, 0, 1, 3] [c, a, b, d] =
          [a, b, c, d] := rfl
      rw [hsc6]
      rw [hGarr]

/-! ### Claim theorems -/

/-- Claim C1 counterexample: for the labeled array with axis order
(lat, lon, time) and sizes (2, 3, 4), the restore step reassembles the axes
assuming the original layout was (other, lat, lon), so the round trip
returns an array of shape (4, 2, 3) instead of the original (2, 3, 4); the
claimed identity on shape fails (in the real libraries the final relabeling
then fails on the mismatched coordinates). -/
theorem c1_roundtrip_counterexample :
    SpharmInterface.init (some c1ceA) (some c1ceA) 0 0 false =
      Except.ok c1ceSi ∧
    (c1ceSi.to_xarray ((SpharmInterface.prep_for_spharm (some c1ceA)).getD
      ⟨[], []⟩) (some c1ceA)).map (fun r => r.arr.shape) = some [4, 2, 3] ∧
    c1ceA.arr.shape = [2, 3, 4] ∧
    ¬ (c1ceSi.to_xarray ((SpharmInterface.prep_for_spharm (some c1ceA)).getD
      ⟨[], []⟩) (some c1ceA)).map (fun r => r.arr.shape) =
        some c1ceA.arr.shape := by
  refine ⟨rfl, rfl, rfl, ?_⟩
  decide

/-- Claim C1 (amended): for every well-formed labeled array A whose axes end
with latitude then longitude (the other one or two axes named differently)
and ndim 3 or 4 - the layouts the restore step supports - the round trip
to_xarray(prep_for_spharm(A), A) on an interface constructed from A
reproduces dims, coordinates, shape, and mask exactly, and every unmasked
position holds its original value. -/
theorem c1_roundtrip_amended (A R : DataArray Int) (P : NDArray Int)
    (si : SpharmInterface) (d0 d1 : String)
    (h0a : d0 ≠ LAT_STR) (h0b : d0 ≠ LON_STR)
    (h1a : d1 ≠ LAT_STR) (h1b : d1 ≠ LON_STR)
    (hdims : A.dims = [d0, LAT_STR, LON_STR] ∨
      A.dims = [d0, d1, LAT_STR, LON_STR])
    (h : A.wf = true)
    (hinit : SpharmInterface.init (some A) (some A) 0 0 false = Except.ok si)
    (hP : SpharmInterface.prep_for_spharm (some A) = some P)
    (hR : si.to_xarray P (some A) = some R) :
    R.dims = A.dims ∧ R.coords = A.coords ∧ R.arr.shape = A.arr.shape ∧
    R.mask = A.mask ∧
    ∀ ix, validIx A.arr.shape ix = true →
      A.maskedFlat (flatIdx A.arr.shape ix) = false →
      R.arr.get ix = A.arr.get ix := by
  have hPp : P = SpharmInterface.prep_arr A := by
    simpa [SpharmInterface.prep_for_spharm] using hP.symm
  have hsim : si.mask = A.mask := by
    simp [SpharmInterface.init] at hinit
    rw [← hinit]
  have hRr : R = si.to_xarray_core P A := by
    simpa [SpharmInterface.to_xarray] using hR.symm
  subst hPp
  rw [hRr]
  refine ⟨rfl, rfl, ?_, ?_, ?_⟩
  · show (SpharmInterface.tx_arr4 (SpharmInterface.prep_arr A) A).shape =
      A.arr.shape
    rcases hdims with hd | hd
    · exact (roundtrip3 A d0 h0a h0b hd h).1
    · exact (roundtrip4 A d0 d1 h0a h0b h1a h1b hd h).1
  · show si.mask = A.mask
    exact hsim
  · intro ix hv hm
    show (SpharmInterface.tx_arr4 (SpharmInterface.prep_arr A) A).get ix =
      A.arr.get ix
    have hfill : (SpharmInterface.fill_mask A 0).arr.get ix = A.arr.get ix := by
      have hfg := fill_mask_get A 0 h ix hv
      rw [hm] at hfg
      simpa using hfg
    rcases hdims with hd | hd
    · rw [(roundtrip3 A d0 h0a h0b hd h).2 ix hv, hfill]
    · rw [(roundtrip4 A d0 d1 h0a h0b h1a h1b hd h).2 ix hv, hfill]

/-- Claim C1 witness: the masked (time, lat, lon) array c1wA with sizes
(2, 3, 4) and north-to-south latitude; round tripping through the interface
built from it reproduces dims, coords, shape and mask, and the unmasked
position (0, 1, 2) keeps its value. -/
theorem c1_roundtrip_witness :
    c1wR.dims = c1wA.dims ∧ c1wR.coords = c1wA.coords ∧
    c1wR.arr.shape = c1wA.arr.shape ∧ c1wR.mask = c1wA.mask ∧
    c1wR.arr.get [0, 1, 2] = c1wA.arr.get [0, 1, 2] := by
  have h := c1_roundtrip_amended c1wA c1wR c1wP c1wSi "time" "x"
    (by decide) (by decide) (by decide) (by decide)
    (Or.inl rfl) (by decide) rfl rfl rfl
  exact ⟨h.1, h.2.1, h.2.2.1, h.2.2.2.1,
    h.2.2.2.2 [0, 1, 2] (by decide) (by decide)⟩

/-- Claim C7: prep_for_spharm returns None when given None, and otherwise
applies mask-filling (with the default fill value zero), then
latitude-orientation normalisation (to north-to-south), then the forward
axis-layout transform, in exactly that order. -/
theorem c7_prep_order :
    SpharmInterface.prep_for_spharm none = none ∧
    ∀ arr : DataArray Int,
      SpharmInterface.prep_for_spharm (some arr) =
        some (SpharmInterface.format_axes_for_spharm
          (SpharmInterface.flip_lat_order (SpharmInterface.fill_mask arr 0) true)) :=
  ⟨rfl, fun _ => rfl⟩

/-- Claim C2 failing input: on the north-to-south latitude coordinates
[90, 45, 0, -45, -90] the difference test all(lat[1:] - lat[:-1]) only
checks that the differences are nonzero, so the code classifies this
sequence as south-to-north: with a north-to-south target it flips the axis
(the claim says no flip), and with a south-to-north target it does not flip
(the claim says it flips to [-90, -45, 0, 45, 90]). -/
theorem c2_flag_flip_lat_failing_input :
    SpharmInterface.flag_flip_lat_vals [90, 45, 0, -45, -90] true = true ∧
    SpharmInterface.flag_flip_lat_vals [90, 45, 0, -45, -90] false = false ∧
    (SpharmInterface.flip_lat_order c2A true).coord LAT_STR =
      [-90, -45, 0, 45, 90] ∧
    (SpharmInterface.flip_lat_order c2A false).coord LAT_STR =
      [90, 45, 0, -45, -90] := by
  refine ⟨rfl, rfl, ?_, ?_⟩ <;> decide

/-- Claim C6 failing input: for axis order (time, lon, lat) with sizes
(2, 3, 4), format_axes_for_spharm applies the second rollaxis with the
stale pre-roll longitude position, producing shape (n_lat, n_time, n_lon) =
(4, 2, 3) instead of the documented (n_lat, n_lon, n_other) = (4, 3, 2). -/
theorem c6_format_axes_failing_input :
    (SpharmInterface.format_axes_for_spharm c6A).shape = [4, 2, 3] ∧
    ¬ (SpharmInterface.format_axes_for_spharm c6A).shape = [4, 3, 2] := by
  refine ⟨?_, ?_⟩ <;> decide

/-- Claim C5: fill_mask keeps dims, coords and shape, returns no mask, and
every position holds the fill value when masked and the original value
otherwise. -/
theorem c5_fill_mask_spec (A : DataArray Int) (fv : Int) (h : A.wf = true) :
    (SpharmInterface.fill_mask A fv).dims = A.dims ∧
    (SpharmInterface.fill_mask A fv).coords = A.coords ∧
    (SpharmInterface.fill_mask A fv).arr.shape = A.arr.shape ∧
    (SpharmInterface.fill_mask A fv).mask = none ∧
    ∀ ix, validIx A.arr.shape ix = true →
      (SpharmInterface.fill_mask A fv).arr.get ix =
        if A.maskedFlat (flatIdx A.arr.shape ix) = true then fv
        else A.arr.get ix :=
  ⟨rfl, rfl, rfl, rfl, fun ix hv => fill_mask_get A fv h ix hv⟩

/-- Claim C5 witness: the spec example [[1, masked], [masked, 4]] with fill
value 0; the masked position (0, 1) becomes 0, the unmasked position (1, 1)
keeps value 4, and the result carries no mask. -/
theorem c5_fill_mask_witness :
    c5wA.wf = true ∧
    (SpharmInterface.fill_mask c5wA 0).arr.get [0, 1] = 0 ∧
    (SpharmInterface.fill_mask c5wA 0).arr.get [1, 1] = 4 ∧
    (SpharmInterface.fill_mask c5wA 0).mask = none := by
  have h := c5_fill_mask_spec c5wA 0 (by decide)
  refine ⟨by decide, ?_, ?_, h.2.2.2.1⟩
  · rw [h.2.2.2.2 [0, 1] (by decide)]
    decide
  · rw [h.2.2.2.2 [1, 1] (by decide)]
    decide

/-- Claim C3 counterexample: with no components and only n_lat = 5 supplied
(n_lon left at its falsy default), neither both components nor both counts
are supplied, so the claim requires a configuration error; the code raises
only when neither count is truthy and constructs successfully here. -/
theorem c3_init_counterexample :
    isError (SpharmInterface.init none none 5 0 false) = false := by
  decide

/-- Claim C3 (amended): construction raises the configuration error exactly
when the components are not both supplied and neither axis count is truthy;
when both components are supplied together with any truthy count it logs the
warning preferring data-derived counts and proceeds without error. -/
theorem c3_init_amended (u v : Option (DataArray Int)) (nlat nlon : Nat) :
    (isError (SpharmInterface.init u v nlat nlon false) = true ↔
      ((u.isNone ∨ v.isNone) ∧ nlat = 0 ∧ nlon = 0)) ∧
    (∀ a b, u = some a → v = some b →
      (SpharmInterface.init u v nlat nlon false).toOption.map
        SpharmInterface.warned = some (decide (nlat ≠ 0 ∨ nlon ≠ 0))) := by
  constructor
  · cases u <;> cases v <;>
      by_cases hc : nlat = 0 ∧ nlon = 0 <;>
      simp [SpharmInterface.init, isError, hc]
  · intro a b hu hv
    subst hu
    subst hv
    rfl

/-- Claim C3 witness: with u = v = none and counts (3, 0) there is no error
(3 is truthy), the iff instance holds; and with both components and
n_lat = 3 supplied construction succeeds with the warning logged. -/
theorem c3_init_witness :
    (isError (SpharmInterface.init none none 3 0 false) = true ↔
      (((none : Option (DataArray Int)).isNone ∨
        (none : Option (DataArray Int)).isNone) ∧ (3 : Nat) = 0 ∧ (0 : Nat) = 0)) ∧
    (SpharmInterface.init (some c3wA) (some c3wA) 3 0 false).toOption.map
      SpharmInterface.warned = some true := by
  constructor
  · exact (c3_init_amended none none 3 0).1
  · have h := (c3_init_amended (some c3wA) (some c3wA) 3 0).2 c3wA c3wA rfl rfl
    simpa using h

/-- Claim C9: the mask stored by construction is the u component's mask
(none, the False sentinel, when u has no mask), and to_xarray reapplies
exactly that stored mask to whatever array is being restored. -/
theorem c9_mask_from_u (u v : Option (DataArray Int)) (nlat nlon : Nat)
    (si : SpharmInterface)
    (h : SpharmInterface.init u v nlat nlon false = Except.ok si)
    (nd : NDArray Int) (B : DataArray Int) :
    si.mask = u.bind DataArray.mask ∧
    (si.to_xarray nd (some B)).map DataArray.mask = some si.mask := by
  refine ⟨?_, rfl⟩
  cases u <;> cases v <;>
    by_cases hc : nlat = 0 ∧ nlon = 0 <;>
      simp [SpharmInterface.init, hc] at h <;>
      rw [← h] <;> rfl

/-- Claim C9 witness: the interface built from a masked u and a differently
masked v stores u's mask, and restoring v reapplies u's mask, not v's. -/
theorem c9_mask_from_u_witness :
    c9si.mask = some [true, false, false, false] ∧
    (c9si.to_xarray ⟨[2, 2], [9, 9, 9, 9]⟩ (some c9vA)).map DataArray.mask =
      some (some [true, false, false, false]) ∧
    c9vA.mask = some [false, false, false, true] := by
  have h := c9_mask_from_u (some c9uA) (some c9vA) 0 0 c9si rfl
    ⟨[2, 2], [9, 9, 9, 9]⟩ c9vA
  refine ⟨?_, ?_, rfl⟩
  · rw [h.1]
    rfl
  · rw [h.2, h.1]
    rfl

/-- Claim C10: to_xarray with arr_orig omitted uses the labeled u component
stored at construction (before any prep) as the reference array. -/
theorem c10_to_xarray_default_orig (A : DataArray Int)
    (v : Option (DataArray Int)) (nlat nlon : Nat) (si : SpharmInterface)
    (h : SpharmInterface.init (some A) v nlat nlon false = Except.ok si)
    (nd : NDArray Int) :
    si._u = some A ∧
    si.to_xarray nd none = some (si.to_xarray_core nd A) := by
  have h1 : si._u = some A := by
    cases v <;>
      by_cases hc : nlat = 0 ∧ nlon = 0 <;>
        simp [SpharmInterface.init, hc] at h <;>
        rw [← h]
  refine ⟨h1, ?_⟩
  show (match si._u with
    | none => none
    | some orig => some (si.to_xarray_core nd orig)) = _
  rw [h1]

theorem dropLoop_unlabeled_parts : ∀ (l : List (String × List Int))
    (a : DataArray Int),
    (SpharmInterface.dropLoop a l).dims = a.dims ∧
    (SpharmInterface.dropLoop a l).arr = a.arr ∧
    (SpharmInterface.dropLoop a l).mask = a.mask := by
  intro l
  induction l with
  | nil => intro a; exact ⟨rfl, rfl, rfl⟩
  | cons q rest ih =>
    intro a
    obtain ⟨name, c⟩ := q
    simp only [SpharmInterface.dropLoop]
    by_cases hs : c.length = 0 ∨ c.length = 1
    · rw [if_pos hs]
      unfold DataArray.drop
      by_cases hd : name ∈ a.dims
      · rw [if_pos hd]
        exact ih a
      · rw [if_neg hd]
        exact ih { a with coords := a.coords.filter (fun p => p.1 != name) }
    · rw [if_neg hs]
      exact ih a

theorem dropLoop_coords : ∀ (l : List (String × List Int)) (a : DataArray Int),
    (SpharmInterface.dropLoop a l).coords =
      a.coords.filter (fun p =>
        !(decide (p.1 ∈ ((l.filter (fun q =>
            ((q.2.length == 0) || (q.2.length == 1)) &&
              !(decide (q.1 ∈ a.dims)))).map Prod.fst)))) := by
  intro l
  induction l with
  | nil =>
    intro a
    simp [SpharmInterface.dropLoop]
  | cons q rest ih =>
    intro a
    obtain ⟨name, c⟩ := q
    simp only [SpharmInterface.dropLoop]
    by_cases hs : c.length = 0 ∨ c.length = 1
    · have hsb : ((c.length == 0) || (c.length == 1)) = true := by
        rcases hs with h | h <;> simp [h]
      rw [if_pos hs]
      unfold DataArray.drop
      by_cases hd : name ∈ a.dims
      · rw [if_pos hd]
        rw [ih a]
        have hcondn : (((name, c).2.length == 0 || (name, c).2.length == 1) &&
            !decide ((name, c).1 ∈ a.dims)) = false := by simp [hd]
        rw [List.filter_cons, hcondn]
        simp
      · rw [if_neg hd]
        rw [ih { a with coords := a.coords.filter (fun p => p.1 != name) }]
        show (a.coords.filter (fun p => p.1 != name)).filter _ = _
        rw [List.filter_filter]
        have hcondn : (((name, c).2.length == 0 || (name, c).2.length == 1) &&
            !decide ((name, c).1 ∈ a.dims)) = true := by
          simp [hd, hsb]
        rw [List.filter_cons, hcondn]
        simp only [if_true]
        apply List.filter_congr
        intro p _
        simp only [List.map_cons, List.mem_cons]
        rcases eq_or_ne p.1 name with h | h
        · simp [h]
        · simp [h]
    · have h1 : c.length ≠ 0 := fun h2 => hs (Or.inl h2)
      have h2 : c.length ≠ 1 := fun h2 => hs (Or.inr h2)
      rw [if_neg hs]
      rw [ih a]
      have hcondn : (((name, c).2.length == 0 || (name, c).2.length == 1) &&
          !decide ((name, c).1 ∈ a.dims)) = false := by simp [h1, h2]
      rw [List.filter_cons, hcondn]
      simp

theorem pair_eq_of_nodup_fst {l : List (String × List Int)}
    (hnd : (l.map Prod.fst).Nodup) {p q : String × List Int}
    (hp : p ∈ l) (hq : q ∈ l) (h : p.1 = q.1) : p = q :=
  List.inj_on_of_nodup_map hnd hp hq h

/-- Claim C8 counterexample: an array with a latitude axis of size zero; the
claim requires the axis (and its coordinate) to be removed, but xarray
squeeze only drops length-one axes, and the zero-length coordinate cannot be
dropped because its dimension is still present, so both are retained. -/
theorem c8_squeeze_counterexample :
    (SpharmInterface.squeeze c8ceA).dims = [LAT_STR, LON_STR] ∧
    ¬ (SpharmInterface.squeeze c8ceA).dims = [LON_STR] ∧
    (SpharmInterface.squeeze c8ceA).coords.map Prod.fst =
      [LAT_STR, LON_STR] := by
  refine ⟨?_, ?_, ?_⟩ <;> decide

/-- Claim C8 (amended): squeeze removes every axis of size one (axes of size
zero are retained); it then drops every coordinate with zero or one value
except those the array still requires as a dimension coordinate, which are
silently retained without raising; data and mask are unchanged. -/
theorem c8_squeeze_amended (A : DataArray Int)
    (hnd : (A.coords.map Prod.fst).Nodup) :
    (SpharmInterface.squeeze A).dims =
      ((A.dims.zip A.arr.shape).filter (fun p => p.2 != 1)).map Prod.fst ∧
    (SpharmInterface.squeeze A).arr.shape =
      A.arr.shape.filter (fun s => s != 1) ∧
    (SpharmInterface.squeeze A).arr.data = A.arr.data ∧
    (SpharmInterface.squeeze A).mask = A.mask ∧
    (SpharmInterface.squeeze A).coords = A.coords.filter (fun p =>
      decide (p.1 ∈ (SpharmInterface.squeeze A).dims) ||
      !((p.2.length == 0) || (p.2.length == 1))) := by
  have hparts := dropLoop_unlabeled_parts A.squeeze_x.coords A.squeeze_x
  have hdims : (SpharmInterface.squeeze A).dims = A.squeeze_x.dims := hparts.1
  refine ⟨hdims, ?_, ?_, ?_, ?_⟩
  · rw [show (SpharmInterface.squeeze A).arr = A.squeeze_x.arr from hparts.2.1]
    rfl
  · rw [show (SpharmInterface.squeeze A).arr = A.squeeze_x.arr from hparts.2.1]
    rfl
  · exact hparts.2.2
  · have hco := dropLoop_coords A.squeeze_x.coords A.squeeze_x
    have hco2 : (SpharmInterface.squeeze A).coords =
        A.coords.filter (fun p =>
          !(decide (p.1 ∈ ((A.coords.filter (fun q =>
              ((q.2.length == 0) || (q.2.length == 1)) &&
                !(decide (q.1 ∈ A.squeeze_x.dims)))).map Prod.fst)))) := hco
    rw [hco2]
    apply List.filter_congr
    intro p hp
    rw [hdims]
    by_cases hsm : ((p.2.length == 0) || (p.2.length == 1)) = true
    · by_cases hdm : p.1 ∈ A.squeeze_x.dims
      · have hmm : ¬ p.1 ∈ ((A.coords.filter (fun q =>
            ((q.2.length == 0) || (q.2.length == 1)) &&
              !(decide (q.1 ∈ A.squeeze_x.dims)))).map Prod.fst) := by
          intro hmem
          obtain ⟨q, hq, hq1⟩ := List.mem_map.mp hmem
          obtain ⟨hql, hqf⟩ := List.mem_filter.mp hq
          have : q = p := pair_eq_of_nodup_fst hnd hql hp hq1
          subst this
          simp [hdm] at hqf
        simp [hmm, hdm]
      · have hmm : p.1 ∈ ((A.coords.filter (fun q =>
            ((q.2.length == 0) || (q.2.length == 1)) &&
              !(decide (q.1 ∈ A.squeeze_x.dims)))).map Prod.fst) :=
          List.mem_map.mpr ⟨p, List.mem_filter.mpr ⟨hp, by simp [hsm, hdm]⟩, rfl⟩
        simp [hmm, hdm, hsm]
    · have hmm : ¬ p.1 ∈ ((A.coords.filter (fun q =>
          ((q.2.length == 0) || (q.2.length == 1)) &&
            !(decide (q.1 ∈ A.squeeze_x.dims)))).map Prod.fst) := by
        intro hmem
        obtain ⟨q, hq, hq1⟩ := List.mem_map.mp hmem
        obtain ⟨hql, hqf⟩ := List.mem_filter.mp hq
        have : q = p := pair_eq_of_nodup_fst hnd hql hp hq1
        subst this
        simp [hsm] at hqf
      simp [hmm, hsm]

/-- Claim C8 witness: the array with dims (p, lat) and sizes (1, 3); the
size-one axis p is removed together with its coordinate, and the latitude
coordinate (still a dimension) is retained. -/
theorem c8_squeeze_witness :
    (c8wA.coords.map Prod.fst).Nodup ∧
    (SpharmInterface.squeeze c8wA).dims = [LAT_STR] ∧
    (SpharmInterface.squeeze c8wA).coords = [(LAT_STR, [1, 2, 3])] := by
  have h := c8_squeeze_amended c8wA (by decide)
  refine ⟨by decide, ?_, ?_⟩
  · rw [h.1]
    decide
  · rw [h.2.2.2.2, h.1]
    decide

theorem revf_valid (s : List Nat) (ax : Nat) (ix : List Nat)
    (hv : validIx s ix = true) :
    validIx s (ix.set ax (s.getD ax 0 - 1 - ix.getD ax 0)) = true := by
  by_cases hax : ax < s.length
  · have hi := validIx_getD hv hax
    exact validIx_set hv (by omega)
  · have hlen := validIx_length hv
    rw [set_of_length_le _ _ (by omega)]
    exact hv

theorem revf_invol (s : List Nat) (ax : Nat) (ix : List Nat)
    (hv : validIx s ix = true) :
    (ix.set ax (s.getD ax 0 - 1 - ix.getD ax 0)).set ax
      (s.getD ax 0 - 1 -
        (ix.set ax (s.getD ax 0 - 1 - ix.getD ax 0)).getD ax 0) = ix := by
  by_cases hax : ax < s.length
  · have hlen := validIx_length hv
    have hi := validIx_getD hv hax
    rw [getD_set_self _ _ _ (by omega)]
    rw [List.set_set]
    have harith : s.getD ax 0 - 1 - (s.getD ax 0 - 1 - ix.getD ax 0) =
        ix.getD ax 0 := by omega
    rw [harith]
    exact set_getD_self ix ax
  · have hlen := validIx_length hv
    rw [set_of_length_le _ _ (by rw [List.length_set]; omega),
      set_of_length_le _ _ (by omega)]

theorem map_revcoord_invol (l : List (String × List Int)) (d : String) :
    (l.map (fun p => if p.1 = d then (p.1, p.2.reverse) else p)).map
      (fun p => if p.1 = d then (p.1, p.2.reverse) else p) = l := by
  rw [List.map_map]
  have hpt : ∀ p : String × List Int,
      ((fun p : String × List Int => if p.1 = d then (p.1, p.2.reverse) else p) ∘
        (fun p : String × List Int => if p.1 = d then (p.1, p.2.reverse) else p))
          p = p := by
    intro p
    obtain ⟨p1, p2⟩ := p
    by_cases h : p1 = d
    · subst h
      simp [Function.comp]
    · simp [Function.comp, h]
  rw [List.map_congr_left (fun p _ => hpt p)]
  exact List.map_id l

theorem isel_rev_isel_rev (A : DataArray Int) (h : A.wf = true) :
    (A.isel_rev LAT_STR).isel_rev LAT_STR = A := by
  obtain ⟨hlen, hmask, hdl⟩ := wf_parts A h
  obtain ⟨dims, coords, arr, mask⟩ := A
  simp only at hlen hmask hdl
  unfold DataArray.isel_rev
  simp only [NDArray.remap_shape, DataArray.mk.injEq]
  refine ⟨trivial, map_revcoord_invol coords LAT_STR, ?_, ?_⟩
  · exact NDArray.remap_remap_self arr _ hlen
      (fun ix hv => revf_valid arr.shape (dims.indexOf LAT_STR) ix hv)
      (fun ix hv => revf_invol arr.shape (dims.indexOf LAT_STR) ix hv)
  · rcases mask with _ | m
    · rfl
    · have hml : m.length = prodl arr.shape := by
        rw [← hlen]
        exact hmask m rfl
      simp only [Option.map_some']
      have heta : (⟨arr.shape,
          (NDArray.remap ⟨arr.shape, m⟩ arr.shape
            (fun ix => ix.set (dims.indexOf LAT_STR)
              (arr.shape.getD (dims.indexOf LAT_STR) 0 - 1 -
                ix.getD (dims.indexOf LAT_STR) 0))).data⟩ : NDArray Bool) =
          NDArray.remap ⟨arr.shape, m⟩ arr.shape
            (fun ix => ix.set (dims.indexOf LAT_STR)
              (arr.shape.getD (dims.indexOf LAT_STR) 0 - 1 -
                ix.getD (dims.indexOf LAT_STR) 0)) := rfl
      rw [heta]
      have hrr := NDArray.remap_remap_self (⟨arr.shape, m⟩ : NDArray Bool)
        (fun ix => ix.set (dims.indexOf LAT_STR)
          (arr.shape.getD (dims.indexOf LAT_STR) 0 - 1 -
            ix.getD (dims.indexOf LAT_STR) 0))
        hml
        (fun ix hv => revf_valid arr.shape (dims.indexOf LAT_STR) ix hv)
        (fun ix hv => revf_invol arr.shape (dims.indexOf LAT_STR) ix hv)
      have hdata := congrArg NDArray.data hrr
      simpa using hdata

/-- Claim C4: flipping the latitude orientation twice with the same target
returns the original array (values, coordinates, dims and mask); when no
flip is needed the call returns arr.copy (in this pure embedding a value
identical to the input, since the source copies precisely to avoid aliasing). -/
theorem c4_flip_involution (A : DataArray Int) (t : Bool) (h : A.wf = true) :
    SpharmInterface.flip_lat_order (SpharmInterface.flip_lat_order A t) t = A ∧
    (SpharmInterface.flag_flip_lat A t = false →
      SpharmInterface.flip_lat_order A t = A.copy) := by
  have hcopy : ∀ hb : SpharmInterface.flag_flip_lat A t = false,
      SpharmInterface.flip_lat_order A t = A.copy := by
    intro hb
    unfold SpharmInterface.flip_lat_order
    rw [hb]
    simp
  refine ⟨?_, hcopy⟩
  by_cases hb : SpharmInterface.flag_flip_lat A t = true
  · have h1 : SpharmInterface.flip_lat_order A t = A.isel_rev LAT_STR := by
      unfold SpharmInterface.flip_lat_order
      rw [if_pos hb]
    rw [h1]
    have hb2 : SpharmInterface.flag_flip_lat (A.isel_rev LAT_STR) t = true := by
      rw [flag_isel_rev]
      exact hb
    unfold SpharmInterface.flip_lat_order
    rw [if_pos hb2]
    exact isel_rev_isel_rev A h
  · have hb' : SpharmInterface.flag_flip_lat A t = false := by
      simpa using hb
    rw [hcopy hb']
    show SpharmInterface.flip_lat_order A t = A
    rw [hcopy hb']
    rfl

/-- Claim C4 witness: the masked (time, lat, lon) array c4wA with
north-to-south latitude; the flag fires for the north-to-south target (the
nonzero-difference test), a double flip restores the array exactly, and
with the opposite target no flip happens and a copy is returned. -/
theorem c4_flip_involution_witness :
    c4wA.wf = true ∧
    SpharmInterface.flip_lat_order
      (SpharmInterface.flip_lat_order c4wA true) true = c4wA ∧
    SpharmInterface.flag_flip_lat c4wA false = false ∧
    SpharmInterface.flip_lat_order c4wA false = c4wA.copy := by
  refine ⟨by decide, (c4_flip_involution c4wA true (by decide)).1,
    by decide, (c4_flip_involution c4wA false (by decide)).2 (by decide)⟩

/-- Claim C10 witness: the interface built from c3wA resolves a missing
arr_orig to c3wA itself. -/
theorem c10_to_xarray_default_witness :
    c10si._u = some c3wA ∧
    c10si.to_xarray ⟨[2, 2], [0, 0, 0, 0]⟩ none =
      some (c10si.to_xarray_core ⟨[2, 2], [0, 0, 0, 0]⟩ c3wA) :=
  c10_to_xarray_default_orig c3wA (some c3wA) 0 0 c10si rfl ⟨[2, 2], [0, 0, 0, 0]⟩

end AnimalSpharm
